import Mathlib

/-!
Verification development for the gosailing2 sailing-race simulation.

The Go sources are shallowly embedded:
* pure float64 arithmetic that only ever uses rational constants and the
  four field operations (the polar tables, the wind interpolation, the race
  state machine) is embedded over `ℚ`;
* code that calls trigonometric functions (`Dashboard.FindBestVMG`,
  `Boat.GetBowPosition`) is embedded over `ℝ` with `Real.cos`/`Real.sin`;
* Go slices become `List ℚ`; out-of-range reads (which would panic in Go and
  never happen on the concrete tables) use `getD`-style total lookups;
* the rendering, input handling and wall-clock plumbing of the game loop are
  outside the embedded race logic, which receives the sampled per-tick values
  (delta time, boat position, bow position, boat speed, wind speed, VMG
  reading) as explicit inputs, exactly the values the Go code reads at the
  corresponding program points.
-/

/-! ## Polar performance model (pkg/polars/polars.go) -/

/-- Wind speed data points of the realistic polar table (knots). -/
def windSpeedsList : List ℚ := [4, 6, 8, 10, 12, 14, 16, 20, 24]

/-- Angle data points of the realistic polar table (degrees). -/
def anglesList : List ℚ := [52, 60, 75, 90, 110, 120, 135, 150]

/-- Speed table rows, one per wind speed, of `RealisticPolar.GetBoatSpeed`. -/
def speedTable : List (List ℚ) :=
  [ [3.73, 3.94, 4.06, 3.99, 4.02, 3.85, 3.37, 2.78],
    [5.05, 5.30, 5.45, 5.47, 5.53, 5.34, 4.77, 4.03],
    [6.01, 6.25, 6.41, 6.55, 6.64, 6.49, 5.96, 5.18],
    [6.62, 6.79, 6.93, 7.13, 7.23, 7.14, 6.81, 6.16],
    [6.94, 7.10, 7.24, 7.47, 7.65, 7.58, 7.33, 6.89],
    [7.08, 7.27, 7.48, 7.67, 8.04, 7.99, 7.76, 7.35],
    [7.16, 7.35, 7.65, 7.82, 8.39, 8.41, 8.21, 7.76],
    [7.24, 7.46, 7.84, 8.19, 8.89, 9.34, 9.24, 8.64],
    [7.26, 7.49, 7.95, 8.44, 9.30, 10.14, 10.85, 9.90] ]

/-- Beat VMG values per wind speed row. -/
def beatVMGList : List ℚ := [2.40, 3.33, 4.09, 4.63, 4.96, 5.10, 5.17, 5.24, 5.20]

/-- Beat angle values per wind speed row. -/
def beatAnglesList : List ℚ := [42.7, 42.7, 40.4, 38.9, 37.5, 36.9, 36.6, 36.6, 37.2]

/-- `RealisticPolar.findWindIndex`: the Go loop scans `i` from `0` and returns
the first `i` with `tws <= windSpeeds[i+1]`, defaulting to `len-2` when the
loop falls through. The recursion below computes exactly that index. -/
def RealisticPolar.findWindIndex (tws : ℚ) : List ℚ → ℕ
  | _ :: w1 :: w2 :: rest =>
      if tws ≤ w1 then 0
      else 1 + RealisticPolar.findWindIndex tws (w1 :: w2 :: rest)
  | _ => 0

/-- `RealisticPolar.interpolateFloat`: linear interpolation (or, for `tws`
outside the table, extrapolation) of `values` between the wind-speed
breakpoints bracketing index `windIndex`. -/
def RealisticPolar.interpolateFloat (tws : ℚ) (windSpeeds values : List ℚ)
    (windIndex : ℕ) : ℚ :=
  if windSpeeds.length - 1 ≤ windIndex then values.getLastD 0
  else
    let w1 := windSpeeds.getD windIndex 0
    let w2 := windSpeeds.getD (windIndex + 1) 0
    let v1 := values.getD windIndex 0
    let v2 := values.getD (windIndex + 1) 0
    v1 + (v2 - v1) * ((tws - w1) / (w2 - w1))

/-- Helper mirroring the angle-index search loop in
`RealisticPolar.getSpeedAtAngle`: first `i` with `twa <= angles[i+1]`, and
`none` when the loop falls through (the Go variable then keeps its initial
value `0`, reproduced by `angleIndexOf` below). -/
def angleIndexLoop (twa : ℚ) : List ℚ → Option ℕ
  | _ :: a1 :: rest =>
      if twa ≤ a1 then some 0
      else (angleIndexLoop twa (a1 :: rest)).map (· + 1)
  | _ => none

/-- The angle index actually used by `RealisticPolar.getSpeedAtAngle`,
including the fall-through default `0` and the final `len-2` clamp. -/
def angleIndexOf (twa : ℚ) (angles : List ℚ) : ℕ :=
  let idx := (angleIndexLoop twa angles).getD 0
  if angles.length - 1 ≤ idx then angles.length - 2 else idx

/-- `RealisticPolar.interpolateAngle`: linear interpolation of `speeds`
between the angle breakpoints bracketing `angleIndex`. -/
def RealisticPolar.interpolateAngle (twa : ℚ) (angles speeds : List ℚ)
    (angleIndex : ℕ) : ℚ :=
  if angles.length - 1 ≤ angleIndex then speeds.getLastD 0
  else
    let a1 := angles.getD angleIndex 0
    let a2 := angles.getD (angleIndex + 1) 0
    let s1 := speeds.getD angleIndex 0
    let s2 := speeds.getD (angleIndex + 1) 0
    s1 + (s2 - s1) * ((twa - a1) / (a2 - a1))

/-- `RealisticPolar.getSpeedAtAngle`: bilinear interpolation across the
speed table, first along the angle axis in the two bracketing wind rows,
then along the wind axis. -/
def RealisticPolar.getSpeedAtAngle (twa tws : ℚ) (windSpeeds angles : List ℚ)
    (table : List (List ℚ)) : ℚ :=
  let windIndex := RealisticPolar.findWindIndex tws windSpeeds
  let angleIndex := angleIndexOf twa angles
  let speed1 := RealisticPolar.interpolateAngle twa angles (table.getD windIndex []) angleIndex
  let speed2 := RealisticPolar.interpolateAngle twa angles (table.getD (windIndex + 1) []) angleIndex
  let w1 := windSpeeds.getD windIndex 0
  let w2 := windSpeeds.getD (windIndex + 1) 0
  speed1 + (speed2 - speed1) * ((tws - w1) / (w2 - w1))

/-- `RealisticPolar.GetBoatSpeed` (pkg/polars/polars.go): boat speed in knots
from signed true wind angle (degrees) and true wind speed (knots). -/
def RealisticPolar.GetBoatSpeed (twa tws : ℚ) : ℚ :=
  let absTWA₀ := |twa|
  let absTWA := if 180 < absTWA₀ then 360 - absTWA₀ else absTWA₀
  if absTWA < 30 then 0
  else if absTWA < 52 then
    let windIndex := RealisticPolar.findWindIndex tws windSpeedsList
    let beatAngle := RealisticPolar.interpolateFloat tws windSpeedsList beatAnglesList windIndex
    if absTWA < beatAngle then 0
    else
      let vmg := RealisticPolar.interpolateFloat tws windSpeedsList beatVMGList windIndex
      let speed52 := RealisticPolar.getSpeedAtAngle 52 tws windSpeedsList anglesList speedTable
      let factor := (absTWA - beatAngle) / (52 - beatAngle)
      vmg + (speed52 - vmg) * factor
  else
    RealisticPolar.getSpeedAtAngle absTWA tws windSpeedsList anglesList speedTable

example : RealisticPolar.GetBoatSpeed 90 10 = 7.13 := by
  norm_num [RealisticPolar.GetBoatSpeed, RealisticPolar.getSpeedAtAngle,
    RealisticPolar.findWindIndex, angleIndexOf, angleIndexLoop,
    RealisticPolar.interpolateAngle, windSpeedsList, anglesList, speedTable]

example : RealisticPolar.GetBoatSpeed 150 (-1) = -69/200 := by
  norm_num [RealisticPolar.GetBoatSpeed, RealisticPolar.getSpeedAtAngle,
    RealisticPolar.findWindIndex, angleIndexOf, angleIndexLoop,
    RealisticPolar.interpolateAngle, windSpeedsList, anglesList, speedTable]

example : RealisticPolar.GetBoatSpeed 20 10 = 0 := by
  norm_num [RealisticPolar.GetBoatSpeed]



/-- The angle interpolation of a row at the index chosen for `a`. -/
def rowval (s : List ℚ) (a : ℚ) : ℚ :=
  RealisticPolar.interpolateAngle a anglesList s (angleIndexOf a anglesList)

theorem getSpeedAtAngle_rowval (a tws : ℚ) (table : List (List ℚ)) :
    RealisticPolar.getSpeedAtAngle a tws windSpeedsList anglesList table =
      rowval (table.getD (RealisticPolar.findWindIndex tws windSpeedsList) []) a +
        (rowval (table.getD (RealisticPolar.findWindIndex tws windSpeedsList + 1) []) a -
          rowval (table.getD (RealisticPolar.findWindIndex tws windSpeedsList) []) a) *
        ((tws - windSpeedsList.getD (RealisticPolar.findWindIndex tws windSpeedsList) 0) /
          (windSpeedsList.getD (RealisticPolar.findWindIndex tws windSpeedsList + 1) 0 -
            windSpeedsList.getD (RealisticPolar.findWindIndex tws windSpeedsList) 0)) := rfl

/-- For `a ≥ 52` the angle interpolation of every row is an affine
combination of the two breakpoint entries of a single segment, with the
segment index and parameter depending only on `a`. -/
theorem rowval_rep {a : ℚ} (h52 : 52 ≤ a) :
    ∃ j t, j ≤ 6 ∧ 0 ≤ t ∧ (t ≤ 1 ∨ (j = 0 ∧ 150 < a)) ∧
      ∀ s : List ℚ,
        rowval s a = s.getD j 0 + (s.getD (j + 1) 0 - s.getD j 0) * t := by
  rcases le_or_lt a 60 with h1 | h1
  · refine ⟨0, (a - 52) / 8, by norm_num, by linarith,
      Or.inl (by rw [div_le_one (by norm_num : (0:ℚ) < 8)]; linarith), fun s => ?_⟩
    simp only [rowval, RealisticPolar.interpolateAngle, angleIndexOf, angleIndexLoop,
      anglesList]
    norm_num [h1]
  rcases le_or_lt a 75 with h2 | h2
  · refine ⟨1, (a - 60) / 15, by norm_num,
      div_nonneg (by linarith) (by norm_num),
      Or.inl (by rw [div_le_one (by norm_num : (0:ℚ) < 15)]; linarith), fun s => ?_⟩
    simp only [rowval, RealisticPolar.interpolateAngle, angleIndexOf, angleIndexLoop,
      anglesList]
    norm_num [not_le.mpr h1, h2]
  rcases le_or_lt a 90 with h3 | h3
  · refine ⟨2, (a - 75) / 15, by norm_num,
      div_nonneg (by linarith) (by norm_num),
      Or.inl (by rw [div_le_one (by norm_num : (0:ℚ) < 15)]; linarith), fun s => ?_⟩
    simp only [rowval, RealisticPolar.interpolateAngle, angleIndexOf, angleIndexLoop,
      anglesList]
    norm_num [not_le.mpr h1, not_le.mpr h2, h3]
  rcases le_or_lt a 110 with h4 | h4
  · refine ⟨3, (a - 90) / 20, by norm_num,
      div_nonneg (by linarith) (by norm_num),
      Or.inl (by rw [div_le_one (by norm_num : (0:ℚ) < 20)]; linarith), fun s => ?_⟩
    simp only [rowval, RealisticPolar.interpolateAngle, angleIndexOf, angleIndexLoop,
      anglesList]
    norm_num [not_le.mpr h1, not_le.mpr h2, not_le.mpr h3, h4]
  rcases le_or_lt a 120 with h5 | h5
  · refine ⟨4, (a - 110) / 10, by norm_num,
      div_nonneg (by linarith) (by norm_num),
      Or.inl (by rw [div_le_one (by norm_num : (0:ℚ) < 10)]; linarith), fun s => ?_⟩
    simp only [rowval, RealisticPolar.interpolateAngle, angleIndexOf, angleIndexLoop,
      anglesList]
    norm_num [not_le.mpr h1, not_le.mpr h2, not_le.mpr h3, not_le.mpr h4, h5]
  rcases le_or_lt a 135 with h6 | h6
  · refine ⟨5, (a - 120) / 15, by norm_num,
      div_nonneg (by linarith) (by norm_num),
      Or.inl (by rw [div_le_one (by norm_num : (0:ℚ) < 15)]; linarith), fun s => ?_⟩
    simp only [rowval, RealisticPolar.interpolateAngle, angleIndexOf, angleIndexLoop,
      anglesList]
    norm_num [not_le.mpr h1, not_le.mpr h2, not_le.mpr h3, not_le.mpr h4, not_le.mpr h5, h6]
  rcases le_or_lt a 150 with h7 | h7
  · refine ⟨6, (a - 135) / 15, by norm_num,
      div_nonneg (by linarith) (by norm_num),
      Or.inl (by rw [div_le_one (by norm_num : (0:ℚ) < 15)]; linarith), fun s => ?_⟩
    simp only [rowval, RealisticPolar.interpolateAngle, angleIndexOf, angleIndexLoop,
      anglesList]
    norm_num [not_le.mpr h1, not_le.mpr h2, not_le.mpr h3, not_le.mpr h4, not_le.mpr h5,
      not_le.mpr h6, h7]
  · refine ⟨0, (a - 52) / 8, by norm_num, by linarith, Or.inr ⟨rfl, h7⟩, fun s => ?_⟩
    simp only [rowval, RealisticPolar.interpolateAngle, angleIndexOf, angleIndexLoop,
      anglesList]
    norm_num [not_le.mpr h1, not_le.mpr h2, not_le.mpr h3, not_le.mpr h4, not_le.mpr h5,
      not_le.mpr h6, not_le.mpr h7]

/-- Bilinear interpolation with both parameters in `[0,1]` and nonnegative
corner values is nonnegative. -/
theorem bilin_nonneg_box {A1 A2 B1 B2 t u : ℚ} (ht0 : 0 ≤ t) (ht1 : t ≤ 1)
    (hu0 : 0 ≤ u) (hu1 : u ≤ 1) (hA1 : 0 ≤ A1) (hA2 : 0 ≤ A2)
    (hB1 : 0 ≤ B1) (hB2 : 0 ≤ B2) :
    0 ≤ A1 + (A2 - A1) * t + (B1 + (B2 - B1) * t - (A1 + (A2 - A1) * t)) * u := by
  have e : A1 + (A2 - A1) * t + (B1 + (B2 - B1) * t - (A1 + (A2 - A1) * t)) * u
      = (1 - t) * (1 - u) * A1 + (1 - t) * u * B1 + t * (1 - u) * A2 + t * u * B2 := by
    ring
  rw [e]
  have c1 : 0 ≤ (1 - t) * (1 - u) * A1 :=
    mul_nonneg (mul_nonneg (by linarith) (by linarith)) hA1
  have c2 : 0 ≤ (1 - t) * u * B1 := mul_nonneg (mul_nonneg (by linarith) hu0) hB1
  have c3 : 0 ≤ t * (1 - u) * A2 := mul_nonneg (mul_nonneg ht0 (by linarith)) hA2
  have c4 : 0 ≤ t * u * B2 := mul_nonneg (mul_nonneg ht0 hu0) hB2
  linarith

/-- Wind extrapolation below the table (`u` as low as `-2`) stays nonnegative
when the lowest row dominates: `2*B ≤ 3*A` columnwise. -/
theorem bilin_nonneg_low {A1 A2 B1 B2 t u : ℚ} (ht0 : 0 ≤ t) (ht1 : t ≤ 1)
    (hu0 : -2 ≤ u) (hu1 : u ≤ 1) (hB1 : 0 ≤ B1) (hB2 : 0 ≤ B2)
    (hc1 : 2 * B1 ≤ 3 * A1) (hc2 : 2 * B2 ≤ 3 * A2) :
    0 ≤ A1 + (A2 - A1) * t + (B1 + (B2 - B1) * t - (A1 + (A2 - A1) * t)) * u := by
  have e : A1 + (A2 - A1) * t + (B1 + (B2 - B1) * t - (A1 + (A2 - A1) * t)) * u
      = (1 - t) * ((1 - u) / 3) * (3 * A1 - 2 * B1) + (1 - t) * ((2 + u) / 3) * B1
        + t * ((1 - u) / 3) * (3 * A2 - 2 * B2) + t * ((2 + u) / 3) * B2 := by
    ring
  rw [e]
  have c1 : 0 ≤ (1 - t) * ((1 - u) / 3) * (3 * A1 - 2 * B1) :=
    mul_nonneg (mul_nonneg (by linarith) (by linarith)) (by linarith)
  have c2 : 0 ≤ (1 - t) * ((2 + u) / 3) * B1 :=
    mul_nonneg (mul_nonneg (by linarith) (by linarith)) hB1
  have c3 : 0 ≤ t * ((1 - u) / 3) * (3 * A2 - 2 * B2) :=
    mul_nonneg (mul_nonneg ht0 (by linarith)) (by linarith)
  have c4 : 0 ≤ t * ((2 + u) / 3) * B2 := mul_nonneg (mul_nonneg ht0 (by linarith)) hB2
  linarith

/-- Wind extrapolation above the table (`u ≥ 1`) stays nonnegative when the
upper row dominates columnwise. -/
theorem bilin_nonneg_high {A1 A2 B1 B2 t u : ℚ} (ht0 : 0 ≤ t) (ht1 : t ≤ 1)
    (hu : 1 ≤ u) (hB1 : 0 ≤ B1) (hB2 : 0 ≤ B2) (hm1 : A1 ≤ B1) (hm2 : A2 ≤ B2) :
    0 ≤ A1 + (A2 - A1) * t + (B1 + (B2 - B1) * t - (A1 + (A2 - A1) * t)) * u := by
  have e : A1 + (A2 - A1) * t + (B1 + (B2 - B1) * t - (A1 + (A2 - A1) * t)) * u
      = (1 - t) * (B1 + (u - 1) * (B1 - A1)) + t * (B2 + (u - 1) * (B2 - A2)) := by
    ring
  rw [e]
  have c1 : 0 ≤ (1 - t) * (B1 + (u - 1) * (B1 - A1)) :=
    mul_nonneg (by linarith)
      (by have := mul_nonneg (by linarith : (0:ℚ) ≤ u - 1) (by linarith : (0:ℚ) ≤ B1 - A1)
          linarith)
  have c2 : 0 ≤ t * (B2 + (u - 1) * (B2 - A2)) :=
    mul_nonneg ht0
      (by have := mul_nonneg (by linarith : (0:ℚ) ≤ u - 1) (by linarith : (0:ℚ) ≤ B2 - A2)
          linarith)
  linarith

/-- Angle extrapolation beyond 150° (`t ≥ 0` unbounded) with `u ∈ [0,1]`:
nonnegative left column and angle-monotone rows give a nonnegative value. -/
theorem bilin_nonneg_tbeyond_box {A1 A2 B1 B2 t u : ℚ} (ht0 : 0 ≤ t)
    (hu0 : 0 ≤ u) (hu1 : u ≤ 1) (hA1 : 0 ≤ A1) (hB1 : 0 ≤ B1)
    (hdA : A1 ≤ A2) (hdB : B1 ≤ B2) :
    0 ≤ A1 + (A2 - A1) * t + (B1 + (B2 - B1) * t - (A1 + (A2 - A1) * t)) * u := by
  have e : A1 + (A2 - A1) * t + (B1 + (B2 - B1) * t - (A1 + (A2 - A1) * t)) * u
      = ((1 - u) * A1 + u * B1) + t * ((1 - u) * (A2 - A1) + u * (B2 - B1)) := by
    ring
  rw [e]
  have c1 : 0 ≤ (1 - u) * A1 + u * B1 := by
    have := mul_nonneg (by linarith : (0:ℚ) ≤ 1 - u) hA1
    have := mul_nonneg hu0 hB1
    linarith
  have c2 : 0 ≤ t * ((1 - u) * (A2 - A1) + u * (B2 - B1)) := by
    have := mul_nonneg (by linarith : (0:ℚ) ≤ 1 - u) (by linarith : (0:ℚ) ≤ A2 - A1)
    have := mul_nonneg hu0 (by linarith : (0:ℚ) ≤ B2 - B1)
    exact mul_nonneg ht0 (by linarith)
  linarith

/-- Angle extrapolation beyond 150° combined with wind extrapolation below
the table. -/
theorem bilin_nonneg_tbeyond_low {A1 A2 B1 B2 t u : ℚ} (ht0 : 0 ≤ t)
    (hu0 : -2 ≤ u) (hu1 : u ≤ 1) (hB1 : 0 ≤ B1) (hc1 : 2 * B1 ≤ 3 * A1)
    (hdB : B1 ≤ B2) (hcd : 2 * (B2 - B1) ≤ 3 * (A2 - A1)) :
    0 ≤ A1 + (A2 - A1) * t + (B1 + (B2 - B1) * t - (A1 + (A2 - A1) * t)) * u := by
  have e : A1 + (A2 - A1) * t + (B1 + (B2 - B1) * t - (A1 + (A2 - A1) * t)) * u
      = (((1 - u) / 3) * (3 * A1 - 2 * B1) + ((2 + u) / 3) * B1)
        + t * (((1 - u) / 3) * (3 * (A2 - A1) - 2 * (B2 - B1)) + ((2 + u) / 3) * (B2 - B1)) := by
    ring
  rw [e]
  have c1 : 0 ≤ ((1 - u) / 3) * (3 * A1 - 2 * B1) + ((2 + u) / 3) * B1 := by
    have := mul_nonneg (by linarith : (0:ℚ) ≤ (1 - u) / 3) (by linarith : (0:ℚ) ≤ 3 * A1 - 2 * B1)
    have := mul_nonneg (by linarith : (0:ℚ) ≤ (2 + u) / 3) hB1
    linarith
  have c2 : 0 ≤ t * (((1 - u) / 3) * (3 * (A2 - A1) - 2 * (B2 - B1)) + ((2 + u) / 3) * (B2 - B1)) := by
    have := mul_nonneg (by linarith : (0:ℚ) ≤ (1 - u) / 3)
      (by linarith : (0:ℚ) ≤ 3 * (A2 - A1) - 2 * (B2 - B1))
    have := mul_nonneg (by linarith : (0:ℚ) ≤ (2 + u) / 3) (by linarith : (0:ℚ) ≤ B2 - B1)
    exact mul_nonneg ht0 (by linarith)
  linarith

/-- Angle extrapolation beyond 150° combined with wind extrapolation above
the table. -/
theorem bilin_nonneg_tbeyond_high {A1 A2 B1 B2 t u : ℚ} (ht0 : 0 ≤ t)
    (hu : 1 ≤ u) (hB1 : 0 ≤ B1) (hm1 : A1 ≤ B1) (hdB : B1 ≤ B2)
    (hmd : A2 - A1 ≤ B2 - B1) :
    0 ≤ A1 + (A2 - A1) * t + (B1 + (B2 - B1) * t - (A1 + (A2 - A1) * t)) * u := by
  have e : A1 + (A2 - A1) * t + (B1 + (B2 - B1) * t - (A1 + (A2 - A1) * t)) * u
      = (B1 + (u - 1) * (B1 - A1))
        + t * ((B2 - B1) + (u - 1) * ((B2 - B1) - (A2 - A1))) := by
    ring
  rw [e]
  have c1 : 0 ≤ B1 + (u - 1) * (B1 - A1) := by
    have := mul_nonneg (by linarith : (0:ℚ) ≤ u - 1) (by linarith : (0:ℚ) ≤ B1 - A1)
    linarith
  have c2 : 0 ≤ t * ((B2 - B1) + (u - 1) * ((B2 - B1) - (A2 - A1))) := by
    have := mul_nonneg (by linarith : (0:ℚ) ≤ u - 1)
      (by linarith : (0:ℚ) ≤ (B2 - B1) - (A2 - A1))
    exact mul_nonneg ht0 (by linarith)
  linarith

theorem fwi_cell0 {tws : ℚ} (h : tws ≤ 6) :
    RealisticPolar.findWindIndex tws windSpeedsList = 0 := by
  simp [RealisticPolar.findWindIndex, windSpeedsList, h]

theorem fwi_cell1 {tws : ℚ} (h0 : 6 < tws) (h1 : tws ≤ 8) :
    RealisticPolar.findWindIndex tws windSpeedsList = 1 := by
  simp [RealisticPolar.findWindIndex, windSpeedsList, not_le.mpr h0, h1]

theorem fwi_cell2 {tws : ℚ} (h0 : 8 < tws) (h1 : tws ≤ 10) :
    RealisticPolar.findWindIndex tws windSpeedsList = 2 := by
  simp [RealisticPolar.findWindIndex, windSpeedsList, h1,
    not_le.mpr (show (6:ℚ) < tws by linarith), not_le.mpr h0]

theorem fwi_cell3 {tws : ℚ} (h0 : 10 < tws) (h1 : tws ≤ 12) :
    RealisticPolar.findWindIndex tws windSpeedsList = 3 := by
  simp [RealisticPolar.findWindIndex, windSpeedsList, h1,
    not_le.mpr (show (6:ℚ) < tws by linarith), not_le.mpr (show (8:ℚ) < tws by linarith),
    not_le.mpr h0]

theorem fwi_cell4 {tws : ℚ} (h0 : 12 < tws) (h1 : tws ≤ 14) :
    RealisticPolar.findWindIndex tws windSpeedsList = 4 := by
  simp [RealisticPolar.findWindIndex, windSpeedsList, h1,
    not_le.mpr (show (6:ℚ) < tws by linarith), not_le.mpr (show (8:ℚ) < tws by linarith),
    not_le.mpr (show (10:ℚ) < tws by linarith), not_le.mpr h0]

theorem fwi_cell5 {tws : ℚ} (h0 : 14 < tws) (h1 : tws ≤ 16) :
    RealisticPolar.findWindIndex tws windSpeedsList = 5 := by
  simp [RealisticPolar.findWindIndex, windSpeedsList, h1,
    not_le.mpr (show (6:ℚ) < tws by linarith), not_le.mpr (show (8:ℚ) < tws by linarith),
    not_le.mpr (show (10:ℚ) < tws by linarith), not_le.mpr (show (12:ℚ) < tws by linarith),
    not_le.mpr h0]

theorem fwi_cell6 {tws : ℚ} (h0 : 16 < tws) (h1 : tws ≤ 20) :
    RealisticPolar.findWindIndex tws windSpeedsList = 6 := by
  simp [RealisticPolar.findWindIndex, windSpeedsList, h1,
    not_le.mpr (show (6:ℚ) < tws by linarith), not_le.mpr (show (8:ℚ) < tws by linarith),
    not_le.mpr (show (10:ℚ) < tws by linarith), not_le.mpr (show (12:ℚ) < tws by linarith),
    not_le.mpr (show (14:ℚ) < tws by linarith), not_le.mpr h0]

theorem fwi_cell7 {tws : ℚ} (h0 : 20 < tws) :
    RealisticPolar.findWindIndex tws windSpeedsList = 7 := by
  simp [RealisticPolar.findWindIndex, windSpeedsList,
    not_le.mpr (show (6:ℚ) < tws by linarith), not_le.mpr (show (8:ℚ) < tws by linarith),
    not_le.mpr (show (10:ℚ) < tws by linarith), not_le.mpr (show (12:ℚ) < tws by linarith),
    not_le.mpr (show (14:ℚ) < tws by linarith), not_le.mpr (show (16:ℚ) < tws by linarith),
    not_le.mpr h0]


set_option maxHeartbeats 3200000 in
/-- The bilinear table interpolation is nonnegative for all angles `a ≥ 52`
and all nonnegative wind speeds, including both extrapolation regimes. -/
theorem getSpeedAtAngle_nonneg {a tws : ℚ} (h52 : 52 ≤ a) (htws : 0 ≤ tws) :
    0 ≤ RealisticPolar.getSpeedAtAngle a tws windSpeedsList anglesList speedTable := by
  obtain ⟨j, t, hj, ht0, htc, hrep⟩ := rowval_rep h52
  rw [getSpeedAtAngle_rowval]
  rcases le_or_lt tws 6 with h6 | h6
  · rw [fwi_cell0 h6, show windSpeedsList.getD (0 + 1) 0 = (6:ℚ) from rfl,
      show windSpeedsList.getD 0 0 = (4:ℚ) from rfl,
      show speedTable.getD 0 [] = ([3.73, 3.94, 4.06, 3.99, 4.02, 3.85, 3.37, 2.78] : List ℚ) from rfl,
      show speedTable.getD (0 + 1) [] = ([5.05, 5.30, 5.45, 5.47, 5.53, 5.34, 4.77, 4.03] : List ℚ) from rfl]
    simp only [hrep]
    have hu0 : (-2 : ℚ) ≤ (tws - 4) / (6 - 4) := by
      rw [le_div_iff₀ (by norm_num : (0:ℚ) < 6 - 4)]; linarith
    have hu1 : (tws - 4) / (6 - 4) ≤ 1 := by
      rw [div_le_one (by norm_num : (0:ℚ) < 6 - 4)]; linarith
    rcases htc with ht1 | ⟨hj0, hov⟩
    · interval_cases j <;>
        exact bilin_nonneg_low ht0 ht1 hu0 hu1 (by norm_num [List.getD_cons_zero, List.getD_cons_succ]) (by norm_num [List.getD_cons_zero, List.getD_cons_succ]) (by norm_num [List.getD_cons_zero, List.getD_cons_succ]) (by norm_num [List.getD_cons_zero, List.getD_cons_succ])
    · subst hj0
      exact bilin_nonneg_tbeyond_low ht0 hu0 hu1 (by norm_num [List.getD_cons_zero, List.getD_cons_succ]) (by norm_num [List.getD_cons_zero, List.getD_cons_succ]) (by norm_num [List.getD_cons_zero, List.getD_cons_succ]) (by norm_num [List.getD_cons_zero, List.getD_cons_succ])
  rcases le_or_lt tws 8 with h8 | h8
  · rw [fwi_cell1 h6 h8, show windSpeedsList.getD (1 + 1) 0 = (8:ℚ) from rfl,
      show windSpeedsList.getD 1 0 = (6:ℚ) from rfl,
      show speedTable.getD 1 [] = ([5.05, 5.30, 5.45, 5.47, 5.53, 5.34, 4.77, 4.03] : List ℚ) from rfl,
      show speedTable.getD (1 + 1) [] = ([6.01, 6.25, 6.41, 6.55, 6.64, 6.49, 5.96, 5.18] : List ℚ) from rfl]
    simp only [hrep]
    have hu0 : (0 : ℚ) ≤ (tws - 6) / (8 - 6) :=
      div_nonneg (by linarith) (by norm_num)
    have hu1 : (tws - 6) / (8 - 6) ≤ 1 := by
      rw [div_le_one (by norm_num : (0:ℚ) < 8 - 6)]; linarith
    rcases htc with ht1 | ⟨hj0, hov⟩
    · interval_cases j <;>
        exact bilin_nonneg_box ht0 ht1 hu0 hu1 (by norm_num [List.getD_cons_zero, List.getD_cons_succ]) (by norm_num [List.getD_cons_zero, List.getD_cons_succ]) (by norm_num [List.getD_cons_zero, List.getD_cons_succ]) (by norm_num [List.getD_cons_zero, List.getD_cons_succ])
    · subst hj0
      exact bilin_nonneg_tbeyond_box ht0 hu0 hu1 (by norm_num [List.getD_cons_zero, List.getD_cons_succ]) (by norm_num [List.getD_cons_zero, List.getD_cons_succ]) (by norm_num [List.getD_cons_zero, List.getD_cons_succ]) (by norm_num [List.getD_cons_zero, List.getD_cons_succ])
  rcases le_or_lt tws 10 with h10 | h10
  · rw [fwi_cell2 h8 h10, show windSpeedsList.getD (2 + 1) 0 = (10:ℚ) from rfl,
      show windSpeedsList.getD 2 0 = (8:ℚ) from rfl,
      show speedTable.getD 2 [] = ([6.01, 6.25, 6.41, 6.55, 6.64, 6.49, 5.96, 5.18] : List ℚ) from rfl,
      show speedTable.getD (2 + 1) [] = ([6.62, 6.79, 6.93, 7.13, 7.23, 7.14, 6.81, 6.16] : List ℚ) from rfl]
    simp only [hrep]
    have hu0 : (0 : ℚ) ≤ (tws - 8) / (10 - 8) :=
      div_nonneg (by linarith) (by norm_num)
    have hu1 : (tws - 8) / (10 - 8) ≤ 1 := by
      rw [div_le_one (by norm_num : (0:ℚ) < 10 - 8)]; linarith
    rcases htc with ht1 | ⟨hj0, hov⟩
    · interval_cases j <;>
        exact bilin_nonneg_box ht0 ht1 hu0 hu1 (by norm_num [List.getD_cons_zero, List.getD_cons_succ]) (by norm_num [List.getD_cons_zero, List.getD_cons_succ]) (by norm_num [List.getD_cons_zero, List.getD_cons_succ]) (by norm_num [List.getD_cons_zero, List.getD_cons_succ])
    · subst hj0
      exact bilin_nonneg_tbeyond_box ht0 hu0 hu1 (by norm_num [List.getD_cons_zero, List.getD_cons_succ]) (by norm_num [List.getD_cons_zero, List.getD_cons_succ]) (by norm_num [List.getD_cons_zero, List.getD_cons_succ]) (by norm_num [List.getD_cons_zero, List.getD_cons_succ])
  rcases le_or_lt tws 12 with h12 | h12
  · rw [fwi_cell3 h10 h12, show windSpeedsList.getD (3 + 1) 0 = (12:ℚ) from rfl,
      show windSpeedsList.getD 3 0 = (10:ℚ) from rfl,
      show speedTable.getD 3 [] = ([6.62, 6.79, 6.93, 7.13, 7.23, 7.14, 6.81, 6.16] : List ℚ) from rfl,
      show speedTable.getD (3 + 1) [] = ([6.94, 7.10, 7.24, 7.47, 7.65, 7.58, 7.33, 6.89] : List ℚ) from rfl]
    simp only [hrep]
    have hu0 : (0 : ℚ) ≤ (tws - 10) / (12 - 10) :=
      div_nonneg (by linarith) (by norm_num)
    have hu1 : (tws - 10) / (12 - 10) ≤ 1 := by
      rw [div_le_one (by norm_num : (0:ℚ) < 12 - 10)]; linarith
    rcases htc with ht1 | ⟨hj0, hov⟩
    · interval_cases j <;>
        exact bilin_nonneg_box ht0 ht1 hu0 hu1 (by norm_num [List.getD_cons_zero, List.getD_cons_succ]) (by norm_num [List.getD_cons_zero, List.getD_cons_succ]) (by norm_num [List.getD_cons_zero, List.getD_cons_succ]) (by norm_num [List.getD_cons_zero, List.getD_cons_succ])
    · subst hj0
      exact bilin_nonneg_tbeyond_box ht0 hu0 hu1 (by norm_num [List.getD_cons_zero, List.getD_cons_succ]) (by norm_num [List.getD_cons_zero, List.getD_cons_succ]) (by norm_num [List.getD_cons_zero, List.getD_cons_succ]) (by norm_num [List.getD_cons_zero, List.getD_cons_succ])
  rcases le_or_lt tws 14 with h14 | h14
  · rw [fwi_cell4 h12 h14, show windSpeedsList.getD (4 + 1) 0 = (14:ℚ) from rfl,
      show windSpeedsList.getD 4 0 = (12:ℚ) from rfl,
      show speedTable.getD 4 [] = ([6.94, 7.10, 7.24, 7.47, 7.65, 7.58, 7.33, 6.89] : List ℚ) from rfl,
      show speedTable.getD (4 + 1) [] = ([7.08, 7.27, 7.48, 7.67, 8.04, 7.99, 7.76, 7.35] : List ℚ) from rfl]
    simp only [hrep]
    have hu0 : (0 : ℚ) ≤ (tws - 12) / (14 - 12) :=
      div_nonneg (by linarith) (by norm_num)
    have hu1 : (tws - 12) / (14 - 12) ≤ 1 := by
      rw [div_le_one (by norm_num : (0:ℚ) < 14 - 12)]; linarith
    rcases htc with ht1 | ⟨hj0, hov⟩
    · interval_cases j <;>
        exact bilin_nonneg_box ht0 ht1 hu0 hu1 (by norm_num [List.getD_cons_zero, List.getD_cons_succ]) (by norm_num [List.getD_cons_zero, List.getD_cons_succ]) (by norm_num [List.getD_cons_zero, List.getD_cons_succ]) (by norm_num [List.getD_cons_zero, List.getD_cons_succ])
    · subst hj0
      exact bilin_nonneg_tbeyond_box ht0 hu0 hu1 (by norm_num [List.getD_cons_zero, List.getD_cons_succ]) (by norm_num [List.getD_cons_zero, List.getD_cons_succ]) (by norm_num [List.getD_cons_zero, List.getD_cons_succ]) (by norm_num [List.getD_cons_zero, List.getD_cons_succ])
  rcases le_or_lt tws 16 with h16 | h16
  · rw [fwi_cell5 h14 h16, show windSpeedsList.getD (5 + 1) 0 = (16:ℚ) from rfl,
      show windSpeedsList.getD 5 0 = (14:ℚ) from rfl,
      show speedTable.getD 5 [] = ([7.08, 7.27, 7.48, 7.67, 8.04, 7.99, 7.76, 7.35] : List ℚ) from rfl,
      show speedTable.getD (5 + 1) [] = ([7.16, 7.35, 7.65, 7.82, 8.39, 8.41, 8.21, 7.76] : List ℚ) from rfl]
    simp only [hrep]
    have hu0 : (0 : ℚ) ≤ (tws - 14) / (16 - 14) :=
      div_nonneg (by linarith) (by norm_num)
    have hu1 : (tws - 14) / (16 - 14) ≤ 1 := by
      rw [div_le_one (by norm_num : (0:ℚ) < 16 - 14)]; linarith
    rcases htc with ht1 | ⟨hj0, hov⟩
    · interval_cases j <;>
        exact bilin_nonneg_box ht0 ht1 hu0 hu1 (by norm_num [List.getD_cons_zero, List.getD_cons_succ]) (by norm_num [List.getD_cons_zero, List.getD_cons_succ]) (by norm_num [List.getD_cons_zero, List.getD_cons_succ]) (by norm_num [List.getD_cons_zero, List.getD_cons_succ])
    · subst hj0
      exact bilin_nonneg_tbeyond_box ht0 hu0 hu1 (by norm_num [List.getD_cons_zero, List.getD_cons_succ]) (by norm_num [List.getD_cons_zero, List.getD_cons_succ]) (by norm_num [List.getD_cons_zero, List.getD_cons_succ]) (by norm_num [List.getD_cons_zero, List.getD_cons_succ])
  rcases le_or_lt tws 20 with h20 | h20
  · rw [fwi_cell6 h16 h20, show windSpeedsList.getD (6 + 1) 0 = (20:ℚ) from rfl,
      show windSpeedsList.getD 6 0 = (16:ℚ) from rfl,
      show speedTable.getD 6 [] = ([7.16, 7.35, 7.65, 7.82, 8.39, 8.41, 8.21, 7.76] : List ℚ) from rfl,
      show speedTable.getD (6 + 1) [] = ([7.24, 7.46, 7.84, 8.19, 8.89, 9.34, 9.24, 8.64] : List ℚ) from rfl]
    simp only [hrep]
    have hu0 : (0 : ℚ) ≤ (tws - 16) / (20 - 16) :=
      div_nonneg (by linarith) (by norm_num)
    have hu1 : (tws - 16) / (20 - 16) ≤ 1 := by
      rw [div_le_one (by norm_num : (0:ℚ) < 20 - 16)]; linarith
    rcases htc with ht1 | ⟨hj0, hov⟩
    · interval_cases j <;>
        exact bilin_nonneg_box ht0 ht1 hu0 hu1 (by norm_num [List.getD_cons_zero, List.getD_cons_succ]) (by norm_num [List.getD_cons_zero, List.getD_cons_succ]) (by norm_num [List.getD_cons_zero, List.getD_cons_succ]) (by norm_num [List.getD_cons_zero, List.getD_cons_succ])
    · subst hj0
      exact bilin_nonneg_tbeyond_box ht0 hu0 hu1 (by norm_num [List.getD_cons_zero, List.getD_cons_succ]) (by norm_num [List.getD_cons_zero, List.getD_cons_succ]) (by norm_num [List.getD_cons_zero, List.getD_cons_succ]) (by norm_num [List.getD_cons_zero, List.getD_cons_succ])
  · rw [fwi_cell7 h20, show windSpeedsList.getD (7 + 1) 0 = (24:ℚ) from rfl,
      show windSpeedsList.getD 7 0 = (20:ℚ) from rfl,
      show speedTable.getD 7 [] = ([7.24, 7.46, 7.84, 8.19, 8.89, 9.34, 9.24, 8.64] : List ℚ) from rfl,
      show speedTable.getD (7 + 1) [] = ([7.26, 7.49, 7.95, 8.44, 9.30, 10.14, 10.85, 9.90] : List ℚ) from rfl]
    simp only [hrep]
    rcases le_or_lt tws 24 with h24 | h24
    · have hu0 : (0 : ℚ) ≤ (tws - 20) / (24 - 20) :=
        div_nonneg (by linarith) (by norm_num)
      have hu1 : (tws - 20) / (24 - 20) ≤ 1 := by
        rw [div_le_one (by norm_num : (0:ℚ) < 24 - 20)]; linarith
      rcases htc with ht1 | ⟨hj0, hov⟩
      · interval_cases j <;>
          exact bilin_nonneg_box ht0 ht1 hu0 hu1 (by norm_num [List.getD_cons_zero, List.getD_cons_succ]) (by norm_num [List.getD_cons_zero, List.getD_cons_succ]) (by norm_num [List.getD_cons_zero, List.getD_cons_succ]) (by norm_num [List.getD_cons_zero, List.getD_cons_succ])
      · subst hj0
        exact bilin_nonneg_tbeyond_box ht0 hu0 hu1 (by norm_num [List.getD_cons_zero, List.getD_cons_succ]) (by norm_num [List.getD_cons_zero, List.getD_cons_succ]) (by norm_num [List.getD_cons_zero, List.getD_cons_succ]) (by norm_num [List.getD_cons_zero, List.getD_cons_succ])
    · have hu : (1 : ℚ) ≤ (tws - 20) / (24 - 20) := by
        rw [le_div_iff₀ (by norm_num : (0:ℚ) < 24 - 20)]; linarith
      rcases htc with ht1 | ⟨hj0, hov⟩
      · interval_cases j <;>
          exact bilin_nonneg_high ht0 ht1 hu (by norm_num [List.getD_cons_zero, List.getD_cons_succ]) (by norm_num [List.getD_cons_zero, List.getD_cons_succ]) (by norm_num [List.getD_cons_zero, List.getD_cons_succ]) (by norm_num [List.getD_cons_zero, List.getD_cons_succ])
      · subst hj0
        exact bilin_nonneg_tbeyond_high ht0 hu (by norm_num [List.getD_cons_zero, List.getD_cons_succ]) (by norm_num [List.getD_cons_zero, List.getD_cons_succ]) (by norm_num [List.getD_cons_zero, List.getD_cons_succ]) (by norm_num [List.getD_cons_zero, List.getD_cons_succ])

/-- The interpolated beat VMG is nonnegative for every nonnegative wind
speed, provided the interpolated beat angle is below 52° (which always
holds when the close-hauled interpolation branch runs). -/
theorem beatVMG_nonneg {tws : ℚ} (htws : 0 ≤ tws)
    (hba52 : RealisticPolar.interpolateFloat tws windSpeedsList beatAnglesList
      (RealisticPolar.findWindIndex tws windSpeedsList) < 52) :
    0 ≤ RealisticPolar.interpolateFloat tws windSpeedsList beatVMGList
      (RealisticPolar.findWindIndex tws windSpeedsList) := by
  rcases le_or_lt tws 6 with h6 | h6
  · rw [fwi_cell0 h6]
    norm_num [RealisticPolar.interpolateFloat, windSpeedsList, beatVMGList,
      List.getD_cons_zero, List.getD_cons_succ]
    linarith
  rcases le_or_lt tws 8 with h8 | h8
  · rw [fwi_cell1 h6 h8]
    norm_num [RealisticPolar.interpolateFloat, windSpeedsList, beatVMGList,
      List.getD_cons_zero, List.getD_cons_succ]
    linarith
  rcases le_or_lt tws 10 with h10 | h10
  · rw [fwi_cell2 h8 h10]
    norm_num [RealisticPolar.interpolateFloat, windSpeedsList, beatVMGList,
      List.getD_cons_zero, List.getD_cons_succ]
    linarith
  rcases le_or_lt tws 12 with h12 | h12
  · rw [fwi_cell3 h10 h12]
    norm_num [RealisticPolar.interpolateFloat, windSpeedsList, beatVMGList,
      List.getD_cons_zero, List.getD_cons_succ]
    linarith
  rcases le_or_lt tws 14 with h14 | h14
  · rw [fwi_cell4 h12 h14]
    norm_num [RealisticPolar.interpolateFloat, windSpeedsList, beatVMGList,
      List.getD_cons_zero, List.getD_cons_succ]
    linarith
  rcases le_or_lt tws 16 with h16 | h16
  · rw [fwi_cell5 h14 h16]
    norm_num [RealisticPolar.interpolateFloat, windSpeedsList, beatVMGList,
      List.getD_cons_zero, List.getD_cons_succ]
    linarith
  rcases le_or_lt tws 20 with h20 | h20
  · rw [fwi_cell6 h16 h20]
    norm_num [RealisticPolar.interpolateFloat, windSpeedsList, beatVMGList,
      List.getD_cons_zero, List.getD_cons_succ]
    linarith
  · rw [fwi_cell7 h20] at hba52 ⊢
    norm_num [RealisticPolar.interpolateFloat, windSpeedsList, beatVMGList,
      beatAnglesList, List.getD_cons_zero, List.getD_cons_succ] at hba52 ⊢
    linarith

/-- C9 (amended): `RealisticPolar.GetBoatSpeed` returns a nonnegative speed
for every true wind angle and every nonnegative true wind speed. -/
theorem getBoatSpeed_nonneg (twa tws : ℚ) (htws : 0 ≤ tws) :
    0 ≤ RealisticPolar.GetBoatSpeed twa tws := by
  simp only [RealisticPolar.GetBoatSpeed]
  set b := if 180 < |twa| then 360 - |twa| else |twa| with hb
  split_ifs with h30 h52 hba
  · exact le_refl 0
  · exact le_refl 0
  · have hble : RealisticPolar.interpolateFloat tws windSpeedsList beatAnglesList
        (RealisticPolar.findWindIndex tws windSpeedsList) ≤ b := not_lt.mp hba
    have hba52 : RealisticPolar.interpolateFloat tws windSpeedsList beatAnglesList
        (RealisticPolar.findWindIndex tws windSpeedsList) < 52 := lt_of_le_of_lt hble h52
    have hvmg := beatVMG_nonneg htws hba52
    have hs52 := getSpeedAtAngle_nonneg (le_refl 52) htws
    have hf0 : 0 ≤ (b - RealisticPolar.interpolateFloat tws windSpeedsList beatAnglesList
        (RealisticPolar.findWindIndex tws windSpeedsList)) /
        (52 - RealisticPolar.interpolateFloat tws windSpeedsList beatAnglesList
          (RealisticPolar.findWindIndex tws windSpeedsList)) :=
      div_nonneg (by linarith) (by linarith)
    have hf1 : (b - RealisticPolar.interpolateFloat tws windSpeedsList beatAnglesList
        (RealisticPolar.findWindIndex tws windSpeedsList)) /
        (52 - RealisticPolar.interpolateFloat tws windSpeedsList beatAnglesList
          (RealisticPolar.findWindIndex tws windSpeedsList)) ≤ 1 := by
      rw [div_le_one (by linarith)]; linarith
    nlinarith [mul_nonneg hvmg (by linarith : (0:ℚ) ≤ 1 -
        (b - RealisticPolar.interpolateFloat tws windSpeedsList beatAnglesList
          (RealisticPolar.findWindIndex tws windSpeedsList)) /
        (52 - RealisticPolar.interpolateFloat tws windSpeedsList beatAnglesList
          (RealisticPolar.findWindIndex tws windSpeedsList))),
      mul_nonneg hs52 hf0]
  · exact getSpeedAtAngle_nonneg (not_lt.mp h52) htws

/-- Witness for the amended C9 theorem at `twa = 90`, `tws = 10`. -/
theorem getBoatSpeed_nonneg_witness :
    (0:ℚ) ≤ 10 ∧ 0 ≤ RealisticPolar.GetBoatSpeed 90 10 :=
  ⟨by norm_num, getBoatSpeed_nonneg 90 10 (by norm_num)⟩

/-- C9 counterexample: for the out-of-table wind speed `tws = -1` the wind
extrapolation drives the interpolated speed below zero at `twa = 150`, so
the unrestricted nonnegativity claim fails. -/
theorem getBoatSpeed_negative_counterexample :
    RealisticPolar.GetBoatSpeed 150 (-1) < 0 := by
  norm_num [RealisticPolar.GetBoatSpeed, RealisticPolar.getSpeedAtAngle,
    RealisticPolar.findWindIndex, angleIndexOf, angleIndexLoop,
    RealisticPolar.interpolateAngle, windSpeedsList, anglesList, speedTable]

/-- `SimplePolar.GetBoatSpeed` (pkg/polars/polars.go): the basic MVP polar
implementation, embedded over `ℝ` so that it can instantiate the
`Polars`-interface parameter of the dashboard analytics. -/
noncomputable def SimplePolar.GetBoatSpeed (twa tws : ℝ) : ℝ :=
  let absTWA₀ := |twa|
  let absTWA := if 180 < absTWA₀ then 360 - absTWA₀ else absTWA₀
  if absTWA < 45 then 0
  else
    let speedFactor : ℝ :=
      if absTWA < 60 then 0.6
      else if absTWA < 90 then 0.8
      else if absTWA < 120 then 1.0
      else if absTWA < 150 then 0.9
      else 0.7
    let baseSpeed := tws * 0.6
    let baseSpeed := if 8 < baseSpeed then 8 else baseSpeed
    baseSpeed * speedFactor


/-- The true-wind-angle normalization at the top of the dashboard analytics
(`dashboard.go` lines 62-67): fold `heading - windDir` into `[-180, 180]`. -/
noncomputable def normTWA (heading windDir : ℝ) : ℝ :=
  let twa := heading - windDir
  if twa < -180 then twa + 360
  else if 180 < twa then twa - 360
  else twa

/-- One candidate of the VMG scan in `Dashboard.FindBestVMG`: polar speed at
the candidate angle times the cosine of the angle (`dashboard.go` lines
75-77 and 86-88). -/
noncomputable def vmgCandidate (pol : ℝ → ℝ → ℝ) (windSpeed angle : ℝ) : ℝ :=
  pol angle windSpeed * Real.cos (angle * Real.pi / 180)

/-- `Dashboard.FindBestVMG` (pkg/dashboard/dashboard.go): scan candidate
angles in 1° steps (the float loop counters take exact integer values),
keeping the running maximum (upwind) or minimum (downwind) starting from
`bestVMG = 0.0`. The polar model and the sampled boat heading, wind
direction and wind speed are explicit parameters. -/
noncomputable def Dashboard.FindBestVMG (pol : ℝ → ℝ → ℝ)
    (heading windDir windSpeed : ℝ) : ℝ :=
  let absTWA := |normTWA heading windDir|
  if absTWA < 90 then
    (List.range 61).foldl
      (fun (best : ℝ) (k : ℕ) =>
        let vmg := vmgCandidate pol windSpeed (30 + (k : ℝ))
        if best < vmg then vmg else best) 0
  else
    (List.range 91).foldl
      (fun (best : ℝ) (k : ℕ) =>
        let vmg := vmgCandidate pol windSpeed (90 + (k : ℝ))
        if vmg < best then vmg else best) 0

/-- The spec's "maximum over the integer-step candidate angles 30,…,90 of
GetBoatSpeed(angle, tws) * cos(angle)": a genuine list maximum seeded with
the first candidate. -/
noncomputable def bestUpwindVMG (pol : ℝ → ℝ → ℝ) (windSpeed : ℝ) : ℝ :=
  ((List.range 60).map fun k : ℕ => vmgCandidate pol windSpeed (31 + (k : ℝ))).foldl max
    (vmgCandidate pol windSpeed 30)

/-- The spec's "minimum over candidate angles 90,…,180 of the same
expression": a genuine list minimum seeded with the first candidate. -/
noncomputable def bestDownwindVMG (pol : ℝ → ℝ → ℝ) (windSpeed : ℝ) : ℝ :=
  ((List.range 90).map fun k : ℕ => vmgCandidate pol windSpeed (91 + (k : ℝ))).foldl min
    (vmgCandidate pol windSpeed 90)

/-- `Dashboard.FindBestVMG` as the spec's words describe it: the claimed
upwind maximum for `|twa| ≤ 90` and the claimed downwind minimum for
`|twa| > 90`. -/
noncomputable def Dashboard.FindBestVMGSpec (pol : ℝ → ℝ → ℝ)
    (heading windDir windSpeed : ℝ) : ℝ :=
  if |normTWA heading windDir| ≤ 90 then bestUpwindVMG pol windSpeed
  else bestDownwindVMG pol windSpeed

theorem le_foldl_max (l : List ℝ) (x : ℝ) : x ≤ l.foldl max x := by
  induction l generalizing x with
  | nil => exact le_refl x
  | cons a l ih => exact le_trans (le_max_left x a) (ih (max x a))

theorem mem_le_foldl_max (l : List ℝ) (x z : ℝ) (hz : z ∈ l) : z ≤ l.foldl max x := by
  induction l generalizing x with
  | nil => cases hz
  | cons a l ih =>
    rcases List.mem_cons.mp hz with h | h
    · subst h
      exact le_trans (le_max_right x z) (le_foldl_max l (max x z))
    · exact ih (max x a) h

theorem foldl_max_comm (l : List ℝ) (x y : ℝ) :
    l.foldl max (max x y) = max x (l.foldl max y) := by
  induction l generalizing y with
  | nil => rfl
  | cons a l ih =>
    simp only [List.foldl_cons]
    rw [max_assoc]
    exact ih (max y a)

theorem foldl_min_le (l : List ℝ) (x : ℝ) : l.foldl min x ≤ x := by
  induction l generalizing x with
  | nil => exact le_refl x
  | cons a l ih => exact le_trans (ih (min x a)) (min_le_left x a)

theorem foldl_min_le_mem (l : List ℝ) (x z : ℝ) (hz : z ∈ l) : l.foldl min x ≤ z := by
  induction l generalizing x with
  | nil => cases hz
  | cons a l ih =>
    rcases List.mem_cons.mp hz with h | h
    · subst h
      exact le_trans (foldl_min_le l (min x z)) (min_le_right x z)
    · exact ih (min x a) h

theorem vmgCandidate_ninety (pol : ℝ → ℝ → ℝ) (windSpeed : ℝ) :
    vmgCandidate pol windSpeed 90 = 0 := by
  rw [vmgCandidate, show (90 : ℝ) * Real.pi / 180 = Real.pi / 2 by ring,
    Real.cos_pi_div_two, mul_zero]

theorem bestUpwindVMG_nonneg (pol : ℝ → ℝ → ℝ) (windSpeed : ℝ) :
    0 ≤ bestUpwindVMG pol windSpeed := by
  have hmem : vmgCandidate pol windSpeed 90 ∈
      (List.range 60).map fun k : ℕ => vmgCandidate pol windSpeed (31 + (k : ℝ)) :=
    by
      refine List.mem_map.mpr ⟨59, List.mem_range.mpr (by norm_num : (59:ℕ) < 60), ?_⟩
      show vmgCandidate pol windSpeed (31 + ((59:ℕ) : ℝ)) = vmgCandidate pol windSpeed 90
      norm_num
  calc (0:ℝ) = vmgCandidate pol windSpeed 90 := (vmgCandidate_ninety pol windSpeed).symm
    _ ≤ bestUpwindVMG pol windSpeed := mem_le_foldl_max _ _ _ hmem

theorem bestDownwindVMG_nonpos (pol : ℝ → ℝ → ℝ) (windSpeed : ℝ) :
    bestDownwindVMG pol windSpeed ≤ 0 := by
  calc bestDownwindVMG pol windSpeed ≤ vmgCandidate pol windSpeed 90 :=
        foldl_min_le _ _
    _ = 0 := vmgCandidate_ninety pol windSpeed

theorem upwind_fold_eq (pol : ℝ → ℝ → ℝ) (windSpeed : ℝ) :
    (List.range 61).foldl
      (fun (best : ℝ) (k : ℕ) =>
        let vmg := vmgCandidate pol windSpeed (30 + (k : ℝ))
        if best < vmg then vmg else best) 0 = bestUpwindVMG pol windSpeed := by
  have hstep : (fun (best : ℝ) (k : ℕ) =>
      let vmg := vmgCandidate pol windSpeed (30 + (k : ℝ))
      if best < vmg then vmg else best) =
      fun (best : ℝ) (k : ℕ) => max best (vmgCandidate pol windSpeed (30 + (k : ℝ))) := by
    funext b k
    by_cases h : b < vmgCandidate pol windSpeed (30 + (k : ℝ))
    · simp only [if_pos h, max_eq_right h.le]
    · simp only [if_neg h, max_eq_left (not_lt.mp h)]
  rw [hstep, ← List.foldl_map, show (61:ℕ) = 60 + 1 from rfl, List.range_succ_eq_map,
    List.map_cons, List.foldl_cons, List.map_map]
  have hmap : ((fun k : ℕ => vmgCandidate pol windSpeed (30 + (k : ℝ))) ∘ Nat.succ) =
      fun k : ℕ => vmgCandidate pol windSpeed (31 + (k : ℝ)) := by
    funext k
    simp only [Function.comp_apply]
    congr 1
    push_cast
    ring
  rw [hmap, show (30 + ((0:ℕ) : ℝ)) = 30 by norm_num, foldl_max_comm]
  exact max_eq_right (bestUpwindVMG_nonneg pol windSpeed)

theorem downwind_fold_eq (pol : ℝ → ℝ → ℝ) (windSpeed : ℝ) :
    (List.range 91).foldl
      (fun (best : ℝ) (k : ℕ) =>
        let vmg := vmgCandidate pol windSpeed (90 + (k : ℝ))
        if vmg < best then vmg else best) 0 = bestDownwindVMG pol windSpeed := by
  have hstep : (fun (best : ℝ) (k : ℕ) =>
      let vmg := vmgCandidate pol windSpeed (90 + (k : ℝ))
      if vmg < best then vmg else best) =
      fun (best : ℝ) (k : ℕ) => min best (vmgCandidate pol windSpeed (90 + (k : ℝ))) := by
    funext b k
    by_cases h : vmgCandidate pol windSpeed (90 + (k : ℝ)) < b
    · simp only [if_pos h, min_eq_right h.le]
    · simp only [if_neg h, min_eq_left (not_lt.mp h)]
  rw [hstep, ← List.foldl_map, show (91:ℕ) = 90 + 1 from rfl, List.range_succ_eq_map,
    List.map_cons, List.foldl_cons, List.map_map]
  have hmap : ((fun k : ℕ => vmgCandidate pol windSpeed (90 + (k : ℝ))) ∘ Nat.succ) =
      fun k : ℕ => vmgCandidate pol windSpeed (91 + (k : ℝ)) := by
    funext k
    simp only [Function.comp_apply]
    congr 1
    push_cast
    ring
  rw [hmap, show (90 + ((0:ℕ) : ℝ)) = 90 by norm_num,
    show min (0:ℝ) (vmgCandidate pol windSpeed 90) = vmgCandidate pol windSpeed 90 by
      rw [vmgCandidate_ninety, min_self]]
  rfl

/-- The fold in `Dashboard.FindBestVMG` computes the genuine maximum
(upwind, `|twa| < 90`) or minimum (downwind, `|twa| ≥ 90`) of the candidate
VMGs: the 90° candidate is always `0`, so the `0.0` seed never distorts the
extremum. -/
theorem findBestVMG_eq_branches (pol : ℝ → ℝ → ℝ) (heading windDir windSpeed : ℝ) :
    Dashboard.FindBestVMG pol heading windDir windSpeed =
      if |normTWA heading windDir| < 90 then bestUpwindVMG pol windSpeed
      else bestDownwindVMG pol windSpeed := by
  simp only [Dashboard.FindBestVMG]
  split_ifs with h
  · exact upwind_fold_eq pol windSpeed
  · exact downwind_fold_eq pol windSpeed

/-- C8 counterexample: at `twa = 90` exactly (heading 90, wind from 0) the
code takes the downwind branch (strict `< 90` test) and returns a negative
run VMG, while the spec's `|twa| ≤ 90` reading puts 90 in the upwind branch
with a nonnegative beat VMG. -/
theorem findBestVMG_boundary_counterexample :
    Dashboard.FindBestVMG SimplePolar.GetBoatSpeed 90 0 10 ≠
      Dashboard.FindBestVMGSpec SimplePolar.GetBoatSpeed 90 0 10 := by
  have hn : normTWA 90 0 = (90:ℝ) := by norm_num [normTWA]
  have hL : Dashboard.FindBestVMG SimplePolar.GetBoatSpeed 90 0 10 =
      bestDownwindVMG SimplePolar.GetBoatSpeed 10 := by
    simp only [Dashboard.FindBestVMG, hn]
    rw [if_neg (by norm_num)]
    exact downwind_fold_eq _ _
  have hR : Dashboard.FindBestVMGSpec SimplePolar.GetBoatSpeed 90 0 10 =
      bestUpwindVMG SimplePolar.GetBoatSpeed 10 := by
    simp only [Dashboard.FindBestVMGSpec, hn]
    rw [if_pos (by norm_num)]
  have hmem : vmgCandidate SimplePolar.GetBoatSpeed 10 180 ∈
      (List.range 90).map fun k : ℕ =>
        vmgCandidate SimplePolar.GetBoatSpeed 10 (91 + (k : ℝ)) := by
    refine List.mem_map.mpr ⟨89, List.mem_range.mpr (by norm_num : (89:ℕ) < 90), ?_⟩
    show vmgCandidate SimplePolar.GetBoatSpeed 10 (91 + ((89:ℕ) : ℝ)) =
      vmgCandidate SimplePolar.GetBoatSpeed 10 180
    norm_num
  have h180 : vmgCandidate SimplePolar.GetBoatSpeed 10 180 = -(21/5) := by
    rw [vmgCandidate, show (180:ℝ) * Real.pi / 180 = Real.pi by ring, Real.cos_pi]
    norm_num [SimplePolar.GetBoatSpeed]
  have hdown : bestDownwindVMG SimplePolar.GetBoatSpeed 10 ≤ -(21/5) := by
    calc bestDownwindVMG SimplePolar.GetBoatSpeed 10 ≤
        vmgCandidate SimplePolar.GetBoatSpeed 10 180 := foldl_min_le_mem _ _ _ hmem
      _ = -(21/5) := h180
  have hup := bestUpwindVMG_nonneg SimplePolar.GetBoatSpeed 10
  rw [hL, hR]
  intro h
  rw [h] at hdown
  linarith

/-! ## Geometry and wind field (pkg/game/world/wind.go) -/

/-- `geometry.Point`, embedded over `ℚ`. -/
structure Point where
  X : ℚ
  Y : ℚ
deriving DecidableEq

/-- `world.VariableWind`: wind whose speed varies linearly across the course. -/
structure VariableWind where
  Direction : ℚ
  LeftSpeed : ℚ
  RightSpeed : ℚ
  WorldWidth : ℚ

/-- `VariableWind.GetWind`: interpolated wind at a position. The Go
`IsNaN`/`IsInf` input guards cannot fire for exact rationals and are elided;
the `WorldWidth <= 0` guard and the negative-result fallback remain. -/
def VariableWind.GetWind (vw : VariableWind) (pos : Point) : ℚ × ℚ :=
  if vw.WorldWidth ≤ 0 then (vw.Direction, vw.LeftSpeed)
  else
    let xRatio₀ := pos.X / vw.WorldWidth
    let xRatio := if xRatio₀ < 0 then 0 else if 1 < xRatio₀ then 1 else xRatio₀
    let speed := vw.LeftSpeed + (vw.RightSpeed - vw.LeftSpeed) * xRatio
    (vw.Direction, if speed < 0 then vw.LeftSpeed else speed)

example :
    (VariableWind.GetWind ⟨0, 10, 20, 2000⟩ ⟨500, 0⟩).2 = 12.5 := by
  norm_num [VariableWind.GetWind]

/-! ## Race state machine (GameState.Update and helpers, pkg/game/game.go)

The embedded `GameState` keeps exactly the race-rule fields; rendering,
camera, input, banner and wall-clock bookkeeping fields are external to the
race logic.  The per-tick values the Go code samples from the boat, wind and
dashboard objects (delta time, boat centre position, bow position, boat
speed, wind speed at the boat, current-VMG reading) enter as the explicit
`TickInput`. -/

/-- The race-rule fields of gosailing2's `GameState`, plus the immutable
course data (`Dashboard.LineStart`/`LineEnd` and `Arena.Marks` positions). -/
structure GameState where
  timerDuration : ℚ
  elapsedTime : ℚ
  raceStarted : Bool
  raceTimer : ℚ
  isOCS : Bool
  hasCrossedLine : Bool
  lineCrossingTime : ℚ
  secondsLate : ℚ
  vmgAtCrossing : ℚ
  speedPercentage : ℚ
  prevBowPos : Point
  markRoundingPhase1 : Bool
  markRoundingPhase2 : Bool
  markRoundingPhase3 : Bool
  markRounded : Bool
  raceFinished : Bool
  finishTime : ℚ
  lineStart : Point
  lineEnd : Point
  marks : List Point

/-- The values `GameState.Update` samples from its collaborators in one tick. -/
structure TickInput where
  deltaTime : ℚ
  boatPos : Point
  bowPos : Point
  boatSpeed : ℚ
  windSpeed : ℚ
  vmgReading : ℚ

/-- `GameState.isWithinLineBounds`: the bow X-coordinate lies between pin
and committee boat. -/
def GameState.isWithinLineBounds (g : GameState) (bowPos : Point) : Prop :=
  min g.lineStart.X g.lineEnd.X ≤ bowPos.X ∧
    bowPos.X ≤ max g.lineStart.X g.lineEnd.X

instance (g : GameState) (bowPos : Point) :
    Decidable (g.isWithinLineBounds bowPos) := by
  unfold GameState.isWithinLineBounds; infer_instance

/-- `GameState.updateMarkRounding`: the three-phase mark rounding tracker,
a no-op when the arena has fewer than three marks. -/
def GameState.updateMarkRounding (g : GameState) (boatPos : Point) : GameState :=
  if g.marks.length < 3 then g
  else
    let mark := g.marks.getD 2 ⟨0, 0⟩
    let p1 :=
      if ¬g.markRoundingPhase1 ∧ boatPos.Y ≤ mark.Y - 1 then true
      else g.markRoundingPhase1
    let p2a :=
      if p1 ∧ ¬g.markRoundingPhase2 then
        if boatPos.Y < mark.Y then
          if boatPos.X ≤ mark.X - 1 then true else g.markRoundingPhase2
        else false
      else g.markRoundingPhase2
    let phase3Fires := p1 ∧ p2a ∧ ¬g.markRoundingPhase3 ∧ mark.Y + 1 ≤ boatPos.Y
    let p3 := if phase3Fires then true else g.markRoundingPhase3
    let rounded := if phase3Fires then true else g.markRounded
    let p2 :=
      if p2a ∧ ¬p3 ∧ boatPos.Y < mark.Y ∧ mark.X < boatPos.X then false else p2a
    { g with
        markRoundingPhase1 := p1
        markRoundingPhase2 := p2
        markRoundingPhase3 := p3
        markRounded := rounded }

/-- `GameState.checkFinishLineCrossing`: finish detection from the course
side back over the line, within line bounds (banner bookkeeping elided). -/
def GameState.checkFinishLineCrossing (g : GameState) (bowPos : Point) : GameState :=
  if g.prevBowPos.Y < 2400 ∧ 2400 ≤ bowPos.Y ∧ g.isWithinLineBounds bowPos then
    { g with raceFinished := true, finishTime := g.raceTimer }
  else g

/-- Elapsed-time, race-start and race-timer bookkeeping of
`GameState.Update` (part_004 lines 252-277). -/
def GameState.updateTimers (g : GameState) (dt : ℚ) : GameState :=
  let elapsed := g.elapsedTime + dt
  let startFires := ¬g.raceStarted ∧ g.timerDuration ≤ elapsed
  let started := if startFires then true else g.raceStarted
  let raceTimer₀ := if startFires then 0 else g.raceTimer
  let raceTimer := if started ∧ ¬g.raceFinished then raceTimer₀ + dt else raceTimer₀
  { g with elapsedTime := elapsed, raceStarted := started, raceTimer := raceTimer }

/-- Pre-start OCS detection and clearing (part_004 lines 284-292). -/
def GameState.prestartOCS (g : GameState) (bowPos : Point) : GameState :=
  let ocs₁ := if bowPos.Y ≤ 2400 ∧ g.isWithinLineBounds bowPos then true else g.isOCS
  let ocs₂ := if ocs₁ ∧ 2400 < bowPos.Y ∧ g.isWithinLineBounds bowPos then false else ocs₁
  { g with isOCS := ocs₂ }

/-- Post-start OCS clearing (part_004 lines 294-297). -/
def GameState.clearOCS (g : GameState) (bowPos : Point) : GameState :=
  { g with
      isOCS :=
        if g.isOCS ∧ 2400 < bowPos.Y ∧ g.isWithinLineBounds bowPos then false else g.isOCS }

/-- Start-line crossing detection and crossing metrics (part_004 lines
299-321); `elapsedTime` has already been advanced by `updateTimers`. -/
def GameState.lineCrossing (g : GameState) (inp : TickInput) : GameState :=
  if ¬g.hasCrossedLine ∧ ¬g.isOCS ∧ 2400 < g.prevBowPos.Y ∧ inp.bowPos.Y ≤ 2400 ∧
      g.isWithinLineBounds inp.bowPos then
    let targetBeatSpeed := RealisticPolar.GetBoatSpeed 45 inp.windSpeed
    { g with
        hasCrossedLine := true
        lineCrossingTime := g.elapsedTime
        secondsLate := g.elapsedTime - g.timerDuration
        vmgAtCrossing := inp.vmgReading
        speedPercentage :=
          if 0 < targetBeatSpeed then inp.boatSpeed / targetBeatSpeed * 100 else 0 }
  else g

/-- The race-logic portion of `GameState.Update` for one unpaused tick
(part_004 lines 247-335), composed of the blocks above in program order:
timers, OCS handling (pre- or post-start), start-line crossing, mark
rounding, finish detection, and the `prevBowPos` update.  Input handling,
wind-oscillation advance, camera, banners and the boat integration
surrounding this block do not touch these fields. -/
def GameState.Update (g : GameState) (inp : TickInput) : GameState :=
  let g₁ := g.updateTimers inp.deltaTime
  let g₂ :=
    if g₁.raceStarted then
      let gA := g₁.clearOCS inp.bowPos
      let gB := gA.lineCrossing inp
      let gC :=
        if gB.hasCrossedLine && !gB.raceFinished then gB.updateMarkRounding inp.boatPos else gB
      if gC.hasCrossedLine && gC.markRounded && !gC.raceFinished then
        gC.checkFinishLineCrossing inp.bowPos
      else gC
    else g₁.prestartOCS inp.bowPos
  { g₂ with prevBowPos := inp.bowPos }

/-- The race state produced by `NewGame` (pkg/game/game.go): line at
`Y = 2400` between pin `(800, 2400)` and committee boat `(1200, 2400)`,
upwind mark at `(1000, 1780)`, boat start `(1000, 2580)`, 30-second
start timer. -/
def initialGameState : GameState where
  timerDuration := 30
  elapsedTime := 0
  raceStarted := false
  raceTimer := 0
  isOCS := false
  hasCrossedLine := false
  lineCrossingTime := 0
  secondsLate := 0
  vmgAtCrossing := 0
  speedPercentage := 0
  prevBowPos := ⟨1000, 2580⟩
  markRoundingPhase1 := false
  markRoundingPhase2 := false
  markRoundingPhase3 := false
  markRounded := false
  raceFinished := false
  finishTime := 0
  lineStart := ⟨800, 2400⟩
  lineEnd := ⟨1200, 2400⟩
  marks := [⟨800, 2400⟩, ⟨1200, 2400⟩, ⟨1000, 1780⟩]

/-- Race states reachable from `NewGame` by unpaused simulation ticks
(wall-clock deltas are nonnegative). -/
inductive GameState.Reachable : GameState → Prop
  | init : GameState.Reachable initialGameState
  | step (g : GameState) (inp : TickInput) (hdt : 0 ≤ inp.deltaTime)
      (h : GameState.Reachable g) : GameState.Reachable (g.Update inp)

example :
    ((initialGameState.Update
        ⟨30, ⟨1000, 2395⟩, ⟨1000, 2395⟩, 5, 10, 3⟩).hasCrossedLine,
      (initialGameState.Update
        ⟨30, ⟨1000, 2395⟩, ⟨1000, 2395⟩, 5, 10, 3⟩).isOCS,
      (initialGameState.Update
        ⟨30, ⟨1000, 2395⟩, ⟨1000, 2395⟩, 5, 10, 3⟩).raceStarted) =
    (true, false, true) := by
  norm_num [GameState.Update, GameState.isWithinLineBounds,
    GameState.updateTimers, GameState.prestartOCS, GameState.clearOCS,
    GameState.lineCrossing, GameState.updateMarkRounding,
    GameState.checkFinishLineCrossing, initialGameState]

/-! ## Oscillating wind (part_013: pkg/game/world/wind.go with start-line bias)

`time.Time`/`time.Duration` values are embedded as rational seconds; the
integer-nanosecond truncation of Go's `shiftDuration / 3` is immaterial to
the direction bounds and is embedded as exact division.  The calls to
`rand` are embedded as explicit oracle inputs with their documented ranges
(`rand.Intn(13) ∈ [0,12]`, `rand.Float64() ∈ [0,1)`, `rand.Float32()`
coin-flip). -/

/-- The `for` loops normalizing a direction into `[0, 360)` compute exactly
the remainder of `c` modulo `360`. -/
def normalizeDirection (c : ℚ) : ℚ := c - 360 * ⌊c / 360⌋

/-- Angular distance between two directions, in degrees. -/
def angularDistance (a b : ℚ) : ℚ :=
  let d := normalizeDirection (a - b)
  min d (360 - d)

/-- `world.OscillatingWind`: wraps `VariableWind` with random directional
oscillations and a one-time start-line bias cycle. -/
structure OscillatingWind where
  baseWind : VariableWind
  medianDirection : ℚ
  shiftStartTime : ℚ
  shiftStartTimeIsZero : Bool
  shiftDuration : ℚ
  shiftAngle : ℚ
  currentDirection : ℚ
  shiftPhase : ℕ
  phaseStartTime : ℚ
  phaseDuration : ℚ
  isInitialBias : Bool
  initialBiasAngle : ℚ
  gameStartTime : ℚ
  isInInitialBiasCycle : Bool

/-- `OscillatingWind.startNewShift`: the initial-bias shift uses the fixed
predetermined bias angle and a 10s/25s/10s timeline; later shifts draw
`shiftDuration = 13 + durRand` seconds and `shiftAngle = -10 + 20 * angRand`
degrees from the random oracle. -/
def OscillatingWind.startNewShift (ow : OscillatingWind) (now : ℚ)
    (durRand : ℕ) (angRand : ℚ) : OscillatingWind :=
  if ow.isInitialBias then
    { ow with
        shiftDuration := 45
        shiftAngle := ow.initialBiasAngle
        isInInitialBiasCycle := true
        isInitialBias := false
        shiftPhase := 0
        shiftStartTime := now
        shiftStartTimeIsZero := false
        phaseStartTime := now
        phaseDuration := 10 }
  else
    { ow with
        shiftDuration := (13 + durRand : ℚ)
        shiftAngle := -10 + angRand * 20
        isInInitialBiasCycle := false
        shiftPhase := 0
        shiftStartTime := now
        shiftStartTimeIsZero := false
        phaseStartTime := now
        phaseDuration := (13 + durRand : ℚ) / 3 }

/-- `OscillatingWind.UpdateWithElapsedTime`: one oscillation step at wall
clock `now` (the `gameElapsedSeconds` parameter is unused by the Go body).
The random draws a new shift would consume enter as oracle inputs. -/
def OscillatingWind.UpdateWithElapsedTime (ow : OscillatingWind)
    (gameElapsedSeconds : ℚ) (now : ℚ) (durRand : ℕ) (angRand : ℚ) :
    OscillatingWind :=
  let ow₀ :=
    if ow.shiftPhase = 0 ∧ ow.shiftStartTimeIsZero then
      ow.startNewShift now durRand angRand
    else ow
  let elapsedPhase := now - ow₀.phaseStartTime
  let ow₁ :=
    if ow₀.shiftPhase = 0 then
      let progress := elapsedPhase / ow₀.phaseDuration
      if 1 ≤ progress then
        { ow₀ with
            shiftPhase := 1
            phaseStartTime := now
            phaseDuration := if ow₀.isInInitialBiasCycle then 25 else ow₀.shiftDuration / 3
            currentDirection := ow₀.medianDirection + ow₀.shiftAngle }
      else
        { ow₀ with currentDirection := ow₀.medianDirection + ow₀.shiftAngle * progress }
    else if ow₀.shiftPhase = 1 then
      let ow' :=
        if ow₀.phaseDuration ≤ elapsedPhase then
          { ow₀ with
              shiftPhase := 2
              phaseStartTime := now
              phaseDuration := if ow₀.isInInitialBiasCycle then 10 else ow₀.shiftDuration / 3 }
        else ow₀
      { ow' with currentDirection := ow'.medianDirection + ow'.shiftAngle }
    else if ow₀.shiftPhase = 2 then
      let progress := elapsedPhase / ow₀.phaseDuration
      if 1 ≤ progress then
        ({ ow₀ with currentDirection := ow₀.medianDirection }).startNewShift now durRand angRand
      else
        { ow₀ with currentDirection := ow₀.medianDirection + ow₀.shiftAngle * (1 - progress) }
    else ow₀
  let normDir := normalizeDirection ow₁.currentDirection
  { ow₁ with
      currentDirection := normDir
      baseWind := { ow₁.baseWind with Direction := normDir } }

/-- `world.NewOscillatingWind`: constructed with north median, a random
start-line bias angle of magnitude `5 + 10 * biasRand` degrees whose sign is
a coin flip, and the first (bias) shift started immediately. -/
def NewOscillatingWind (leftSpeed rightSpeed worldWidth : ℚ)
    (pinFavored : Bool) (biasRand : ℚ) (now : ℚ) : OscillatingWind :=
  let biasDirection : ℚ := if pinFavored then -1 else 1
  let biasAngle := biasDirection * (5 + biasRand * 10)
  let ow : OscillatingWind :=
    { baseWind := ⟨0, leftSpeed, rightSpeed, worldWidth⟩
      medianDirection := 0
      shiftStartTime := now
      shiftStartTimeIsZero := false
      shiftDuration := 0
      shiftAngle := 0
      currentDirection := 0
      shiftPhase := 0
      phaseStartTime := now
      phaseDuration := 0
      isInitialBias := true
      initialBiasAngle := biasAngle
      gameStartTime := now
      isInInitialBiasCycle := false }
  ow.startNewShift now 0 0

/-- Oscillating-wind states reachable from construction by update calls, the
wall clock never running backwards within a phase and the random draws in
their documented ranges. -/
inductive OscillatingWind.Reachable : OscillatingWind → Prop
  | init (leftSpeed rightSpeed worldWidth : ℚ) (pinFavored : Bool)
      (biasRand : ℚ) (hb : 0 ≤ biasRand ∧ biasRand < 1) (now : ℚ) :
      OscillatingWind.Reachable
        (NewOscillatingWind leftSpeed rightSpeed worldWidth pinFavored biasRand now)
  | step (ow : OscillatingWind) (gameElapsedSeconds now : ℚ) (durRand : ℕ)
      (angRand : ℚ) (hnow : ow.phaseStartTime ≤ now) (hd : durRand ≤ 12)
      (ha : 0 ≤ angRand ∧ angRand < 1) (h : OscillatingWind.Reachable ow) :
      OscillatingWind.Reachable
        (ow.UpdateWithElapsedTime gameElapsedSeconds now durRand angRand)

/-! ### Oscillation boundedness (C7) -/

theorem normalizeDirection_nonneg (c : ℚ) : 0 ≤ normalizeDirection c := by
  have h := Int.floor_le (c / 360)
  have h' : (⌊c / 360⌋ : ℚ) * 360 ≤ c := by
    have := mul_le_mul_of_nonneg_right h (by norm_num : (0:ℚ) ≤ 360)
    calc (⌊c / 360⌋ : ℚ) * 360 ≤ c / 360 * 360 := this
      _ = c := by field_simp
  unfold normalizeDirection
  linarith

theorem normalizeDirection_lt (c : ℚ) : normalizeDirection c < 360 := by
  have h := Int.lt_floor_add_one (c / 360)
  have h' : c < ((⌊c / 360⌋ : ℚ) + 1) * 360 := by
    have := mul_lt_mul_of_pos_right h (by norm_num : (0:ℚ) < 360)
    calc c = c / 360 * 360 := by field_simp
      _ < ((⌊c / 360⌋ : ℚ) + 1) * 360 := this
  unfold normalizeDirection
  linarith

theorem normalizeDirection_eq_self {c : ℚ} (h0 : 0 ≤ c) (h1 : c < 360) :
    normalizeDirection c = c := by
  have : ⌊c / 360⌋ = 0 := by
    rw [Int.floor_eq_zero_iff]
    constructor
    · positivity
    · rw [div_lt_one (by norm_num : (0:ℚ) < 360)]; simpa using h1
  unfold normalizeDirection
  rw [this]
  push_cast
  ring

theorem normalizeDirection_eq_add {c : ℚ} (h0 : -360 ≤ c) (h1 : c < 0) :
    normalizeDirection c = c + 360 := by
  have : ⌊c / 360⌋ = -1 := by
    rw [Int.floor_eq_iff]
    push_cast
    constructor
    · rw [neg_le, ← neg_div, div_le_one (by norm_num : (0:ℚ) < 360)]
      linarith
    · have : c / 360 < 0 := div_neg_of_neg_of_pos h1 (by norm_num)
      linarith
  unfold normalizeDirection
  rw [this]
  push_cast
  ring

/-- After normalization, a pre-normalization direction of magnitude at most
15 degrees lands in `[0, 15] ∪ [345, 360)`. -/
theorem normalizeDirection_small {c : ℚ} (h : |c| ≤ 15) :
    normalizeDirection c ≤ 15 ∨ 345 ≤ normalizeDirection c := by
  rw [abs_le] at h
  rcases le_or_lt 0 c with hc | hc
  · left
    rw [normalizeDirection_eq_self hc (by linarith)]
    exact h.2
  · right
    rw [normalizeDirection_eq_add (by linarith) hc]
    linarith [h.1]

/-- Safety invariant of the oscillating wind state. -/
def OscillatingWind.Inv (ow : OscillatingWind) : Prop :=
  ow.medianDirection = 0 ∧ |ow.shiftAngle| < 15 ∧ |ow.initialBiasAngle| < 15 ∧
    0 < ow.phaseDuration ∧ 0 < ow.shiftDuration ∧
    0 ≤ ow.currentDirection ∧ ow.currentDirection < 360 ∧
    (ow.currentDirection ≤ 15 ∨ 345 ≤ ow.currentDirection)

/-- Sufficient conditions for `Inv` in terms of the pre-normalization
direction. -/
theorem inv_of_fields (g : OscillatingWind) (pre : ℚ)
    (hm : g.medianDirection = 0) (hsa : |g.shiftAngle| < 15)
    (hba : |g.initialBiasAngle| < 15) (hpd : 0 < g.phaseDuration)
    (hsd : 0 < g.shiftDuration)
    (hcd : g.currentDirection = normalizeDirection pre)
    (hpre : |pre| ≤ 15 ∨ (0 ≤ pre ∧ pre < 360 ∧ (pre ≤ 15 ∨ 345 ≤ pre))) :
    g.Inv := by
  refine ⟨hm, hsa, hba, hpd, hsd, ?_, ?_, ?_⟩
  · rw [hcd]; exact normalizeDirection_nonneg pre
  · rw [hcd]; exact normalizeDirection_lt pre
  · rw [hcd]
    rcases hpre with h | ⟨h0, h1, h2⟩
    · exact normalizeDirection_small h
    · rw [normalizeDirection_eq_self h0 h1]; exact h2

theorem startNewShift_medianDirection (ow : OscillatingWind) (now : ℚ)
    (durRand : ℕ) (angRand : ℚ) :
    (ow.startNewShift now durRand angRand).medianDirection = ow.medianDirection := by
  unfold OscillatingWind.startNewShift; split_ifs <;> rfl

theorem startNewShift_currentDirection (ow : OscillatingWind) (now : ℚ)
    (durRand : ℕ) (angRand : ℚ) :
    (ow.startNewShift now durRand angRand).currentDirection = ow.currentDirection := by
  unfold OscillatingWind.startNewShift; split_ifs <;> rfl

theorem startNewShift_initialBiasAngle (ow : OscillatingWind) (now : ℚ)
    (durRand : ℕ) (angRand : ℚ) :
    (ow.startNewShift now durRand angRand).initialBiasAngle = ow.initialBiasAngle := by
  unfold OscillatingWind.startNewShift; split_ifs <;> rfl

theorem startNewShift_phaseStartTime (ow : OscillatingWind) (now : ℚ)
    (durRand : ℕ) (angRand : ℚ) :
    (ow.startNewShift now durRand angRand).phaseStartTime = now := by
  unfold OscillatingWind.startNewShift; split_ifs <;> rfl

theorem startNewShift_shiftAngle {ow : OscillatingWind} (now : ℚ)
    {durRand : ℕ} {angRand : ℚ} (hba : |ow.initialBiasAngle| < 15)
    (ha : 0 ≤ angRand ∧ angRand < 1) :
    |(ow.startNewShift now durRand angRand).shiftAngle| < 15 := by
  unfold OscillatingWind.startNewShift
  split_ifs <;> simp only
  · exact hba
  · rw [abs_lt]
    constructor <;> nlinarith [ha.1, ha.2]

theorem startNewShift_phaseDuration (ow : OscillatingWind) (now : ℚ)
    (durRand : ℕ) (angRand : ℚ) :
    0 < (ow.startNewShift now durRand angRand).phaseDuration := by
  unfold OscillatingWind.startNewShift
  split_ifs <;> simp only
  · norm_num
  · positivity

theorem startNewShift_shiftDuration (ow : OscillatingWind) (now : ℚ)
    (durRand : ℕ) (angRand : ℚ) :
    0 < (ow.startNewShift now durRand angRand).shiftDuration := by
  unfold OscillatingWind.startNewShift
  split_ifs <;> simp only
  · norm_num
  · positivity

theorem startNewShift_inv {ow : OscillatingWind} (h : ow.Inv) (now : ℚ)
    {durRand : ℕ} {angRand : ℚ} (ha : 0 ≤ angRand ∧ angRand < 1) :
    (ow.startNewShift now durRand angRand).Inv := by
  obtain ⟨hm, hsa, hba, hpd, hsd, hc0, hc1, hc2⟩ := h
  refine ⟨?_, ?_, ?_, ?_, ?_, ?_, ?_, ?_⟩
  · rw [startNewShift_medianDirection]; exact hm
  · exact startNewShift_shiftAngle now hba ha
  · rw [startNewShift_initialBiasAngle]; exact hba
  · exact startNewShift_phaseDuration ow now durRand angRand
  · exact startNewShift_shiftDuration ow now durRand angRand
  · rw [startNewShift_currentDirection]; exact hc0
  · rw [startNewShift_currentDirection]; exact hc1
  · rw [startNewShift_currentDirection]; exact hc2

theorem abs_mul_progress_le {a p : ℚ} (ha : |a| < 15) (hp0 : 0 ≤ p)
    (hp1 : p ≤ 1) : |a * p| ≤ 15 := by
  rw [abs_mul, abs_of_nonneg hp0]
  nlinarith [abs_nonneg a]

theorem startNewShift_shiftStartTimeIsZero (ow : OscillatingWind) (now : ℚ)
    (durRand : ℕ) (angRand : ℚ) :
    (ow.startNewShift now durRand angRand).shiftStartTimeIsZero = false := by
  unfold OscillatingWind.startNewShift; split_ifs <;> rfl

/-- When the dead re-initialization branch fires, the update behaves as the
update of the freshly started shift. -/
theorem updateWithElapsedTime_reinit {ow : OscillatingWind}
    (hz : ow.shiftPhase = 0 ∧ ow.shiftStartTimeIsZero = true)
    (ge now : ℚ) (durRand : ℕ) (angRand : ℚ) :
    ow.UpdateWithElapsedTime ge now durRand angRand =
      (ow.startNewShift now durRand angRand).UpdateWithElapsedTime ge now durRand angRand := by
  unfold OscillatingWind.UpdateWithElapsedTime
  rw [if_pos hz, if_neg]
  rw [startNewShift_shiftStartTimeIsZero]
  simp

theorem updateWithElapsedTime_inv_core {ow : OscillatingWind}
    (hz : ¬(ow.shiftPhase = 0 ∧ ow.shiftStartTimeIsZero = true)) (h : ow.Inv)
    (ge now : ℚ) {durRand : ℕ} {angRand : ℚ}
    (hnow : ow.phaseStartTime ≤ now)
    (ha : 0 ≤ angRand ∧ angRand < 1) :
    (ow.UpdateWithElapsedTime ge now durRand angRand).Inv := by
  obtain ⟨hm, hsa, hba, hpd, hsd, hc0, hc1, hc2⟩ := h
  have hel : 0 ≤ now - ow.phaseStartTime := by linarith
  simp only [OscillatingWind.UpdateWithElapsedTime, if_neg hz]
  split_ifs with h1 h2 h3 h4 h5 h6 h7 h8
  -- shift-out phase completes, initial-bias cycle: peak for 25s
  · exact inv_of_fields _ _ hm hsa hba (by norm_num) hsd rfl
      (Or.inl (by rw [hm, zero_add]; exact le_of_lt hsa))
  -- shift-out phase completes, normal cycle: peak for a third of the shift
  · exact inv_of_fields _ _ hm hsa hba (div_pos hsd (by norm_num)) hsd rfl
      (Or.inl (by rw [hm, zero_add]; exact le_of_lt hsa))
  -- shift-out phase interpolating toward the target angle
  · refine inv_of_fields _ _ hm hsa hba hpd hsd rfl (Or.inl ?_)
    rw [hm, zero_add]
    refine abs_mul_progress_le hsa (div_nonneg hel (le_of_lt hpd)) ?_
    exact le_of_lt (lt_of_not_le h2)
  -- peak phase over, initial-bias cycle: shift back for 10s
  · exact inv_of_fields _ _ hm hsa hba (by norm_num) hsd rfl
      (Or.inl (by rw [hm, zero_add]; exact le_of_lt hsa))
  -- peak phase over, normal cycle: shift back for a third of the shift
  · exact inv_of_fields _ _ hm hsa hba (div_pos hsd (by norm_num)) hsd rfl
      (Or.inl (by rw [hm, zero_add]; exact le_of_lt hsa))
  -- holding at the peak angle
  · exact inv_of_fields _ _ hm hsa hba hpd hsd rfl
      (Or.inl (by rw [hm, zero_add]; exact le_of_lt hsa))
  -- shift-back phase completes: direction returns to median, new shift starts
  · refine inv_of_fields _ _ ?_ ?_ ?_ ?_ ?_ rfl ?_
    · rw [startNewShift_medianDirection]; exact hm
    · exact startNewShift_shiftAngle now hba ha
    · rw [startNewShift_initialBiasAngle]; exact hba
    · exact startNewShift_phaseDuration _ now durRand angRand
    · exact startNewShift_shiftDuration _ now durRand angRand
    · rw [startNewShift_currentDirection]
      exact Or.inl (by simp [hm])
  -- shift-back phase interpolating toward the median
  · refine inv_of_fields _ _ hm hsa hba hpd hsd rfl (Or.inl ?_)
    rw [hm, zero_add]
    refine abs_mul_progress_le hsa ?_ ?_
    · have := lt_of_not_le h8
      linarith
    · have := div_nonneg hel (le_of_lt hpd)
      linarith
  -- any other phase value: direction unchanged
  · exact inv_of_fields _ _ hm hsa hba hpd hsd
      (by rw [normalizeDirection_eq_self hc0 hc1]) (Or.inr ⟨hc0, hc1, hc2⟩)

theorem updateWithElapsedTime_inv {ow : OscillatingWind} (h : ow.Inv)
    (ge now : ℚ) {durRand : ℕ} {angRand : ℚ}
    (hnow : ow.phaseStartTime ≤ now)
    (ha : 0 ≤ angRand ∧ angRand < 1) :
    (ow.UpdateWithElapsedTime ge now durRand angRand).Inv := by
  by_cases hz : ow.shiftPhase = 0 ∧ ow.shiftStartTimeIsZero = true
  · rw [updateWithElapsedTime_reinit hz]
    refine updateWithElapsedTime_inv_core ?_ (startNewShift_inv h now ha) ge now ?_ ha
    · rw [startNewShift_shiftStartTimeIsZero]
      simp
    · exact le_of_eq (startNewShift_phaseStartTime ow now durRand angRand)
  · exact updateWithElapsedTime_inv_core hz h ge now hnow ha

theorem newOscillatingWind_inv (leftSpeed rightSpeed worldWidth : ℚ)
    (pinFavored : Bool) {biasRand : ℚ} (hb : 0 ≤ biasRand ∧ biasRand < 1)
    (now : ℚ) :
    (NewOscillatingWind leftSpeed rightSpeed worldWidth pinFavored biasRand now).Inv := by
  have hbias : |(if pinFavored then (-1 : ℚ) else 1) * (5 + biasRand * 10)| < 15 := by
    rw [abs_mul]
    have h5 : (0:ℚ) ≤ 5 + biasRand * 10 := by nlinarith [hb.1]
    have h1 : |(if pinFavored then (-1 : ℚ) else 1)| = 1 := by split_ifs <;> norm_num
    rw [h1, one_mul, abs_of_nonneg h5]
    nlinarith [hb.2]
  simp only [NewOscillatingWind]
  refine ⟨?_, ?_, ?_, ?_, ?_, ?_, ?_, ?_⟩
  · rw [startNewShift_medianDirection]
  · exact startNewShift_shiftAngle now hbias ⟨le_refl 0, by norm_num⟩
  · rw [startNewShift_initialBiasAngle]; exact hbias
  · exact startNewShift_phaseDuration _ now 0 0
  · exact startNewShift_shiftDuration _ now 0 0
  · rw [startNewShift_currentDirection]
  · rw [startNewShift_currentDirection]; norm_num
  · rw [startNewShift_currentDirection]; left; norm_num

theorem reachable_inv {ow : OscillatingWind} (h : ow.Reachable) : ow.Inv := by
  induction h with
  | init ls rs ww pin biasRand hb now => exact newOscillatingWind_inv ls rs ww pin hb now
  | step ow ge now durRand angRand hnow hd ha hr ih =>
      exact updateWithElapsedTime_inv ih ge now hnow ha

/-- C7: for every sequence of oscillation updates and every outcome of the
random shift parameters (including the initial start-line bias cycle), the
wind's `currentDirection` stays within 15 degrees of angular distance from
`medianDirection` and is always normalized into `[0, 360)`. -/
theorem oscillatingWind_direction_bounded {ow : OscillatingWind}
    (h : ow.Reachable) :
    angularDistance ow.currentDirection ow.medianDirection ≤ 15 ∧
      0 ≤ ow.currentDirection ∧ ow.currentDirection < 360 := by
  obtain ⟨hm, _, _, _, _, hc0, hc1, hc2⟩ := reachable_inv h
  refine ⟨?_, hc0, hc1⟩
  unfold angularDistance
  rw [hm, sub_zero, normalizeDirection_eq_self hc0 hc1]
  rcases hc2 with h15 | h345
  · exact le_trans (min_le_left _ _) h15
  · refine le_trans (min_le_right _ _) ?_
    linarith

/-- Witness for C7 at a freshly constructed wind. -/
theorem oscillatingWind_direction_bounded_witness :
    angularDistance (NewOscillatingWind 14 8 2000 false 0 0).currentDirection
        (NewOscillatingWind 14 8 2000 false 0 0).medianDirection ≤ 15 ∧
      0 ≤ (NewOscillatingWind 14 8 2000 false 0 0).currentDirection ∧
      (NewOscillatingWind 14 8 2000 false 0 0).currentDirection < 360 :=
  oscillatingWind_direction_bounded
    (OscillatingWind.Reachable.init 14 8 2000 false 0 ⟨le_refl 0, by norm_num⟩ 0)

/-! ### Wind interpolation linearity (C10) -/

/-- The speed formula asserted by the specification: linear interpolation of
`leftSpeed → rightSpeed` over the clamped ratio `x / worldWidth`. -/
def windSpeedSpec (vw : VariableWind) (pos : Point) : ℚ :=
  vw.LeftSpeed + (vw.RightSpeed - vw.LeftSpeed) * max 0 (min (pos.X / vw.WorldWidth) 1)

/-- C10 counterexample: with `leftSpeed = 10`, `rightSpeed = -20`,
`worldWidth = 2000` the sample at `x = 2000` returns the `leftSpeed`
fallback `10`, not the interpolated `-20`, because `GetWind` replaces a
negative interpolated speed by `leftSpeed`. -/
theorem variableWind_speed_formula_counterexample :
    (VariableWind.GetWind ⟨0, 10, -20, 2000⟩ ⟨2000, 0⟩).2 ≠
      windSpeedSpec ⟨0, 10, -20, 2000⟩ ⟨2000, 0⟩ := by
  norm_num [VariableWind.GetWind, windSpeedSpec]

/-- C10 (amended): for `worldWidth > 0`, the sampled speed equals
`leftSpeed + (rightSpeed - leftSpeed) * clamp(x / worldWidth, 0, 1)`
whenever that interpolated value is nonnegative; a negative interpolated
value falls back to `leftSpeed`. -/
theorem variableWind_speed_interp (vw : VariableWind) (pos : Point)
    (hww : 0 < vw.WorldWidth) :
    (0 ≤ windSpeedSpec vw pos → (vw.GetWind pos).2 = windSpeedSpec vw pos) ∧
      (windSpeedSpec vw pos < 0 → (vw.GetWind pos).2 = vw.LeftSpeed) := by
  unfold VariableWind.GetWind windSpeedSpec
  rw [if_neg (not_le.mpr hww)]
  simp only
  split_ifs with h1 h2 h3 h4 h5
  · have hclamp : max 0 (min (pos.X / vw.WorldWidth) 1) = 0 :=
      max_eq_left (le_trans (min_le_left _ _) (le_of_lt h1))
    rw [hclamp]
    constructor <;> intro h' <;> [linarith; ring]
  · have hclamp : max 0 (min (pos.X / vw.WorldWidth) 1) = 0 :=
      max_eq_left (le_trans (min_le_left _ _) (le_of_lt h1))
    rw [hclamp]
    constructor <;> intro h' <;> [ring; linarith]
  · have hclamp : max 0 (min (pos.X / vw.WorldWidth) 1) = 1 := by
      rw [min_eq_right (le_of_lt h3), max_eq_right (by norm_num : (0:ℚ) ≤ 1)]
    rw [hclamp]
    constructor <;> intro h' <;> [linarith; ring]
  · have hclamp : max 0 (min (pos.X / vw.WorldWidth) 1) = 1 := by
      rw [min_eq_right (le_of_lt h3), max_eq_right (by norm_num : (0:ℚ) ≤ 1)]
    rw [hclamp]
    constructor <;> intro h' <;> [ring; linarith]
  · have hclamp : max 0 (min (pos.X / vw.WorldWidth) 1) = pos.X / vw.WorldWidth := by
      rw [min_eq_left (le_of_not_lt h3), max_eq_right (le_of_not_lt h1)]
    rw [hclamp]
    constructor <;> intro h' <;> [linarith; ring]
  · have hclamp : max 0 (min (pos.X / vw.WorldWidth) 1) = pos.X / vw.WorldWidth := by
      rw [min_eq_left (le_of_not_lt h3), max_eq_right (le_of_not_lt h1)]
    rw [hclamp]
    constructor <;> intro h' <;> [ring; linarith]

/-- Witness for C10 at the specification's own example: 12.5 knots at
`x = 500` for `leftSpeed = 10`, `rightSpeed = 20`, `worldWidth = 2000`. -/
theorem variableWind_speed_interp_witness :
    (VariableWind.GetWind ⟨0, 10, 20, 2000⟩ ⟨500, 0⟩).2 =
      windSpeedSpec ⟨0, 10, 20, 2000⟩ ⟨500, 0⟩ :=
  (variableWind_speed_interp ⟨0, 10, 20, 2000⟩ ⟨500, 0⟩ (by norm_num)).1
    (by norm_num [windSpeedSpec])

example : windSpeedSpec ⟨0, 10, 20, 2000⟩ ⟨500, 0⟩ = 12.5 := by
  norm_num [windSpeedSpec]

/-! ### Frame lemmas for the race-state helpers -/

theorem markRounding_timerDuration (g : GameState) (p : Point) :
    (g.updateMarkRounding p).timerDuration = g.timerDuration := by
  unfold GameState.updateMarkRounding; split_ifs <;> rfl

theorem markRounding_elapsedTime (g : GameState) (p : Point) :
    (g.updateMarkRounding p).elapsedTime = g.elapsedTime := by
  unfold GameState.updateMarkRounding; split_ifs <;> rfl

theorem markRounding_raceStarted (g : GameState) (p : Point) :
    (g.updateMarkRounding p).raceStarted = g.raceStarted := by
  unfold GameState.updateMarkRounding; split_ifs <;> rfl

theorem markRounding_raceTimer (g : GameState) (p : Point) :
    (g.updateMarkRounding p).raceTimer = g.raceTimer := by
  unfold GameState.updateMarkRounding; split_ifs <;> rfl

theorem markRounding_isOCS (g : GameState) (p : Point) :
    (g.updateMarkRounding p).isOCS = g.isOCS := by
  unfold GameState.updateMarkRounding; split_ifs <;> rfl

theorem markRounding_hasCrossedLine (g : GameState) (p : Point) :
    (g.updateMarkRounding p).hasCrossedLine = g.hasCrossedLine := by
  unfold GameState.updateMarkRounding; split_ifs <;> rfl

theorem markRounding_lineCrossingTime (g : GameState) (p : Point) :
    (g.updateMarkRounding p).lineCrossingTime = g.lineCrossingTime := by
  unfold GameState.updateMarkRounding; split_ifs <;> rfl

theorem markRounding_secondsLate (g : GameState) (p : Point) :
    (g.updateMarkRounding p).secondsLate = g.secondsLate := by
  unfold GameState.updateMarkRounding; split_ifs <;> rfl

theorem markRounding_vmgAtCrossing (g : GameState) (p : Point) :
    (g.updateMarkRounding p).vmgAtCrossing = g.vmgAtCrossing := by
  unfold GameState.updateMarkRounding; split_ifs <;> rfl

theorem markRounding_speedPercentage (g : GameState) (p : Point) :
    (g.updateMarkRounding p).speedPercentage = g.speedPercentage := by
  unfold GameState.updateMarkRounding; split_ifs <;> rfl

theorem markRounding_prevBowPos (g : GameState) (p : Point) :
    (g.updateMarkRounding p).prevBowPos = g.prevBowPos := by
  unfold GameState.updateMarkRounding; split_ifs <;> rfl

theorem markRounding_raceFinished (g : GameState) (p : Point) :
    (g.updateMarkRounding p).raceFinished = g.raceFinished := by
  unfold GameState.updateMarkRounding; split_ifs <;> rfl

theorem markRounding_finishTime (g : GameState) (p : Point) :
    (g.updateMarkRounding p).finishTime = g.finishTime := by
  unfold GameState.updateMarkRounding; split_ifs <;> rfl

theorem markRounding_lineStart (g : GameState) (p : Point) :
    (g.updateMarkRounding p).lineStart = g.lineStart := by
  unfold GameState.updateMarkRounding; split_ifs <;> rfl

theorem markRounding_lineEnd (g : GameState) (p : Point) :
    (g.updateMarkRounding p).lineEnd = g.lineEnd := by
  unfold GameState.updateMarkRounding; split_ifs <;> rfl

theorem markRounding_marks (g : GameState) (p : Point) :
    (g.updateMarkRounding p).marks = g.marks := by
  unfold GameState.updateMarkRounding; split_ifs <;> rfl

theorem checkFinish_timerDuration (g : GameState) (b : Point) :
    (g.checkFinishLineCrossing b).timerDuration = g.timerDuration := by
  unfold GameState.checkFinishLineCrossing; split_ifs <;> rfl

theorem checkFinish_elapsedTime (g : GameState) (b : Point) :
    (g.checkFinishLineCrossing b).elapsedTime = g.elapsedTime := by
  unfold GameState.checkFinishLineCrossing; split_ifs <;> rfl

theorem checkFinish_raceStarted (g : GameState) (b : Point) :
    (g.checkFinishLineCrossing b).raceStarted = g.raceStarted := by
  unfold GameState.checkFinishLineCrossing; split_ifs <;> rfl

theorem checkFinish_raceTimer (g : GameState) (b : Point) :
    (g.checkFinishLineCrossing b).raceTimer = g.raceTimer := by
  unfold GameState.checkFinishLineCrossing; split_ifs <;> rfl

theorem checkFinish_isOCS (g : GameState) (b : Point) :
    (g.checkFinishLineCrossing b).isOCS = g.isOCS := by
  unfold GameState.checkFinishLineCrossing; split_ifs <;> rfl

theorem checkFinish_hasCrossedLine (g : GameState) (b : Point) :
    (g.checkFinishLineCrossing b).hasCrossedLine = g.hasCrossedLine := by
  unfold GameState.checkFinishLineCrossing; split_ifs <;> rfl

theorem checkFinish_lineCrossingTime (g : GameState) (b : Point) :
    (g.checkFinishLineCrossing b).lineCrossingTime = g.lineCrossingTime := by
  unfold GameState.checkFinishLineCrossing; split_ifs <;> rfl

theorem checkFinish_secondsLate (g : GameState) (b : Point) :
    (g.checkFinishLineCrossing b).secondsLate = g.secondsLate := by
  unfold GameState.checkFinishLineCrossing; split_ifs <;> rfl

theorem checkFinish_vmgAtCrossing (g : GameState) (b : Point) :
    (g.checkFinishLineCrossing b).vmgAtCrossing = g.vmgAtCrossing := by
  unfold GameState.checkFinishLineCrossing; split_ifs <;> rfl

theorem checkFinish_speedPercentage (g : GameState) (b : Point) :
    (g.checkFinishLineCrossing b).speedPercentage = g.speedPercentage := by
  unfold GameState.checkFinishLineCrossing; split_ifs <;> rfl

theorem checkFinish_prevBowPos (g : GameState) (b : Point) :
    (g.checkFinishLineCrossing b).prevBowPos = g.prevBowPos := by
  unfold GameState.checkFinishLineCrossing; split_ifs <;> rfl

theorem checkFinish_markRoundingPhase1 (g : GameState) (b : Point) :
    (g.checkFinishLineCrossing b).markRoundingPhase1 = g.markRoundingPhase1 := by
  unfold GameState.checkFinishLineCrossing; split_ifs <;> rfl

theorem checkFinish_markRoundingPhase2 (g : GameState) (b : Point) :
    (g.checkFinishLineCrossing b).markRoundingPhase2 = g.markRoundingPhase2 := by
  unfold GameState.checkFinishLineCrossing; split_ifs <;> rfl

theorem checkFinish_markRoundingPhase3 (g : GameState) (b : Point) :
    (g.checkFinishLineCrossing b).markRoundingPhase3 = g.markRoundingPhase3 := by
  unfold GameState.checkFinishLineCrossing; split_ifs <;> rfl

theorem checkFinish_markRounded (g : GameState) (b : Point) :
    (g.checkFinishLineCrossing b).markRounded = g.markRounded := by
  unfold GameState.checkFinishLineCrossing; split_ifs <;> rfl

theorem checkFinish_lineStart (g : GameState) (b : Point) :
    (g.checkFinishLineCrossing b).lineStart = g.lineStart := by
  unfold GameState.checkFinishLineCrossing; split_ifs <;> rfl

theorem checkFinish_lineEnd (g : GameState) (b : Point) :
    (g.checkFinishLineCrossing b).lineEnd = g.lineEnd := by
  unfold GameState.checkFinishLineCrossing; split_ifs <;> rfl

theorem checkFinish_marks (g : GameState) (b : Point) :
    (g.checkFinishLineCrossing b).marks = g.marks := by
  unfold GameState.checkFinishLineCrossing; split_ifs <;> rfl

theorem isWithinLineBounds_markRounding (g : GameState) (p b : Point) :
    (g.updateMarkRounding p).isWithinLineBounds b ↔ g.isWithinLineBounds b := by
  unfold GameState.isWithinLineBounds
  rw [markRounding_lineStart, markRounding_lineEnd]

theorem checkFinish_of_not_within (g : GameState) (b : Point)
    (h : ¬g.isWithinLineBounds b) : g.checkFinishLineCrossing b = g := by
  unfold GameState.checkFinishLineCrossing
  rw [if_neg (fun hc => h hc.2.2)]


theorem timers_timerDuration (g : GameState) (dt : ℚ) :
    (g.updateTimers dt).timerDuration = g.timerDuration := by
  rfl

theorem timers_isOCS (g : GameState) (dt : ℚ) :
    (g.updateTimers dt).isOCS = g.isOCS := by
  rfl

theorem timers_hasCrossedLine (g : GameState) (dt : ℚ) :
    (g.updateTimers dt).hasCrossedLine = g.hasCrossedLine := by
  rfl

theorem timers_lineCrossingTime (g : GameState) (dt : ℚ) :
    (g.updateTimers dt).lineCrossingTime = g.lineCrossingTime := by
  rfl

theorem timers_secondsLate (g : GameState) (dt : ℚ) :
    (g.updateTimers dt).secondsLate = g.secondsLate := by
  rfl

theorem timers_vmgAtCrossing (g : GameState) (dt : ℚ) :
    (g.updateTimers dt).vmgAtCrossing = g.vmgAtCrossing := by
  rfl

theorem timers_speedPercentage (g : GameState) (dt : ℚ) :
    (g.updateTimers dt).speedPercentage = g.speedPercentage := by
  rfl

theorem timers_prevBowPos (g : GameState) (dt : ℚ) :
    (g.updateTimers dt).prevBowPos = g.prevBowPos := by
  rfl

theorem timers_markRoundingPhase1 (g : GameState) (dt : ℚ) :
    (g.updateTimers dt).markRoundingPhase1 = g.markRoundingPhase1 := by
  rfl

theorem timers_markRoundingPhase2 (g : GameState) (dt : ℚ) :
    (g.updateTimers dt).markRoundingPhase2 = g.markRoundingPhase2 := by
  rfl

theorem timers_markRoundingPhase3 (g : GameState) (dt : ℚ) :
    (g.updateTimers dt).markRoundingPhase3 = g.markRoundingPhase3 := by
  rfl

theorem timers_markRounded (g : GameState) (dt : ℚ) :
    (g.updateTimers dt).markRounded = g.markRounded := by
  rfl

theorem timers_raceFinished (g : GameState) (dt : ℚ) :
    (g.updateTimers dt).raceFinished = g.raceFinished := by
  rfl

theorem timers_finishTime (g : GameState) (dt : ℚ) :
    (g.updateTimers dt).finishTime = g.finishTime := by
  rfl

theorem timers_lineStart (g : GameState) (dt : ℚ) :
    (g.updateTimers dt).lineStart = g.lineStart := by
  rfl

theorem timers_lineEnd (g : GameState) (dt : ℚ) :
    (g.updateTimers dt).lineEnd = g.lineEnd := by
  rfl

theorem timers_marks (g : GameState) (dt : ℚ) :
    (g.updateTimers dt).marks = g.marks := by
  rfl

theorem prestart_timerDuration (g : GameState) (b : Point) :
    (g.prestartOCS b).timerDuration = g.timerDuration := by
  rfl

theorem prestart_elapsedTime (g : GameState) (b : Point) :
    (g.prestartOCS b).elapsedTime = g.elapsedTime := by
  rfl

theorem prestart_raceStarted (g : GameState) (b : Point) :
    (g.prestartOCS b).raceStarted = g.raceStarted := by
  rfl

theorem prestart_raceTimer (g : GameState) (b : Point) :
    (g.prestartOCS b).raceTimer = g.raceTimer := by
  rfl

theorem prestart_hasCrossedLine (g : GameState) (b : Point) :
    (g.prestartOCS b).hasCrossedLine = g.hasCrossedLine := by
  rfl

theorem prestart_lineCrossingTime (g : GameState) (b : Point) :
    (g.prestartOCS b).lineCrossingTime = g.lineCrossingTime := by
  rfl

theorem prestart_secondsLate (g : GameState) (b : Point) :
    (g.prestartOCS b).secondsLate = g.secondsLate := by
  rfl

theorem prestart_vmgAtCrossing (g : GameState) (b : Point) :
    (g.prestartOCS b).vmgAtCrossing = g.vmgAtCrossing := by
  rfl

theorem prestart_speedPercentage (g : GameState) (b : Point) :
    (g.prestartOCS b).speedPercentage = g.speedPercentage := by
  rfl

theorem prestart_prevBowPos (g : GameState) (b : Point) :
    (g.prestartOCS b).prevBowPos = g.prevBowPos := by
  rfl

theorem prestart_markRoundingPhase1 (g : GameState) (b : Point) :
    (g.prestartOCS b).markRoundingPhase1 = g.markRoundingPhase1 := by
  rfl

theorem prestart_markRoundingPhase2 (g : GameState) (b : Point) :
    (g.prestartOCS b).markRoundingPhase2 = g.markRoundingPhase2 := by
  rfl

theorem prestart_markRoundingPhase3 (g : GameState) (b : Point) :
    (g.prestartOCS b).markRoundingPhase3 = g.markRoundingPhase3 := by
  rfl

theorem prestart_markRounded (g : GameState) (b : Point) :
    (g.prestartOCS b).markRounded = g.markRounded := by
  rfl

theorem prestart_raceFinished (g : GameState) (b : Point) :
    (g.prestartOCS b).raceFinished = g.raceFinished := by
  rfl

theorem prestart_finishTime (g : GameState) (b : Point) :
    (g.prestartOCS b).finishTime = g.finishTime := by
  rfl

theorem prestart_lineStart (g : GameState) (b : Point) :
    (g.prestartOCS b).lineStart = g.lineStart := by
  rfl

theorem prestart_lineEnd (g : GameState) (b : Point) :
    (g.prestartOCS b).lineEnd = g.lineEnd := by
  rfl

theorem prestart_marks (g : GameState) (b : Point) :
    (g.prestartOCS b).marks = g.marks := by
  rfl

theorem clearOCS_timerDuration (g : GameState) (b : Point) :
    (g.clearOCS b).timerDuration = g.timerDuration := by
  rfl

theorem clearOCS_elapsedTime (g : GameState) (b : Point) :
    (g.clearOCS b).elapsedTime = g.elapsedTime := by
  rfl

theorem clearOCS_raceStarted (g : GameState) (b : Point) :
    (g.clearOCS b).raceStarted = g.raceStarted := by
  rfl

theorem clearOCS_raceTimer (g : GameState) (b : Point) :
    (g.clearOCS b).raceTimer = g.raceTimer := by
  rfl

theorem clearOCS_hasCrossedLine (g : GameState) (b : Point) :
    (g.clearOCS b).hasCrossedLine = g.hasCrossedLine := by
  rfl

theorem clearOCS_lineCrossingTime (g : GameState) (b : Point) :
    (g.clearOCS b).lineCrossingTime = g.lineCrossingTime := by
  rfl

theorem clearOCS_secondsLate (g : GameState) (b : Point) :
    (g.clearOCS b).secondsLate = g.secondsLate := by
  rfl

theorem clearOCS_vmgAtCrossing (g : GameState) (b : Point) :
    (g.clearOCS b).vmgAtCrossing = g.vmgAtCrossing := by
  rfl

theorem clearOCS_speedPercentage (g : GameState) (b : Point) :
    (g.clearOCS b).speedPercentage = g.speedPercentage := by
  rfl

theorem clearOCS_prevBowPos (g : GameState) (b : Point) :
    (g.clearOCS b).prevBowPos = g.prevBowPos := by
  rfl

theorem clearOCS_markRoundingPhase1 (g : GameState) (b : Point) :
    (g.clearOCS b).markRoundingPhase1 = g.markRoundingPhase1 := by
  rfl

theorem clearOCS_markRoundingPhase2 (g : GameState) (b : Point) :
    (g.clearOCS b).markRoundingPhase2 = g.markRoundingPhase2 := by
  rfl

theorem clearOCS_markRoundingPhase3 (g : GameState) (b : Point) :
    (g.clearOCS b).markRoundingPhase3 = g.markRoundingPhase3 := by
  rfl

theorem clearOCS_markRounded (g : GameState) (b : Point) :
    (g.clearOCS b).markRounded = g.markRounded := by
  rfl

theorem clearOCS_raceFinished (g : GameState) (b : Point) :
    (g.clearOCS b).raceFinished = g.raceFinished := by
  rfl

theorem clearOCS_finishTime (g : GameState) (b : Point) :
    (g.clearOCS b).finishTime = g.finishTime := by
  rfl

theorem clearOCS_lineStart (g : GameState) (b : Point) :
    (g.clearOCS b).lineStart = g.lineStart := by
  rfl

theorem clearOCS_lineEnd (g : GameState) (b : Point) :
    (g.clearOCS b).lineEnd = g.lineEnd := by
  rfl

theorem clearOCS_marks (g : GameState) (b : Point) :
    (g.clearOCS b).marks = g.marks := by
  rfl

theorem lineCross_timerDuration (g : GameState) (inp : TickInput) :
    (g.lineCrossing inp).timerDuration = g.timerDuration := by
  unfold GameState.lineCrossing; split_ifs <;> rfl

theorem lineCross_elapsedTime (g : GameState) (inp : TickInput) :
    (g.lineCrossing inp).elapsedTime = g.elapsedTime := by
  unfold GameState.lineCrossing; split_ifs <;> rfl

theorem lineCross_raceStarted (g : GameState) (inp : TickInput) :
    (g.lineCrossing inp).raceStarted = g.raceStarted := by
  unfold GameState.lineCrossing; split_ifs <;> rfl

theorem lineCross_raceTimer (g : GameState) (inp : TickInput) :
    (g.lineCrossing inp).raceTimer = g.raceTimer := by
  unfold GameState.lineCrossing; split_ifs <;> rfl

theorem lineCross_isOCS (g : GameState) (inp : TickInput) :
    (g.lineCrossing inp).isOCS = g.isOCS := by
  unfold GameState.lineCrossing; split_ifs <;> rfl

theorem lineCross_prevBowPos (g : GameState) (inp : TickInput) :
    (g.lineCrossing inp).prevBowPos = g.prevBowPos := by
  unfold GameState.lineCrossing; split_ifs <;> rfl

theorem lineCross_markRoundingPhase1 (g : GameState) (inp : TickInput) :
    (g.lineCrossing inp).markRoundingPhase1 = g.markRoundingPhase1 := by
  unfold GameState.lineCrossing; split_ifs <;> rfl

theorem lineCross_markRoundingPhase2 (g : GameState) (inp : TickInput) :
    (g.lineCrossing inp).markRoundingPhase2 = g.markRoundingPhase2 := by
  unfold GameState.lineCrossing; split_ifs <;> rfl

theorem lineCross_markRoundingPhase3 (g : GameState) (inp : TickInput) :
    (g.lineCrossing inp).markRoundingPhase3 = g.markRoundingPhase3 := by
  unfold GameState.lineCrossing; split_ifs <;> rfl

theorem lineCross_markRounded (g : GameState) (inp : TickInput) :
    (g.lineCrossing inp).markRounded = g.markRounded := by
  unfold GameState.lineCrossing; split_ifs <;> rfl

theorem lineCross_raceFinished (g : GameState) (inp : TickInput) :
    (g.lineCrossing inp).raceFinished = g.raceFinished := by
  unfold GameState.lineCrossing; split_ifs <;> rfl

theorem lineCross_finishTime (g : GameState) (inp : TickInput) :
    (g.lineCrossing inp).finishTime = g.finishTime := by
  unfold GameState.lineCrossing; split_ifs <;> rfl

theorem lineCross_lineStart (g : GameState) (inp : TickInput) :
    (g.lineCrossing inp).lineStart = g.lineStart := by
  unfold GameState.lineCrossing; split_ifs <;> rfl

theorem lineCross_lineEnd (g : GameState) (inp : TickInput) :
    (g.lineCrossing inp).lineEnd = g.lineEnd := by
  unfold GameState.lineCrossing; split_ifs <;> rfl

theorem lineCross_marks (g : GameState) (inp : TickInput) :
    (g.lineCrossing inp).marks = g.marks := by
  unfold GameState.lineCrossing; split_ifs <;> rfl

theorem isWithinLineBounds_congr (g' g : GameState)
    (h1 : g'.lineStart = g.lineStart) (h2 : g'.lineEnd = g.lineEnd)
    (b : Point) : g'.isWithinLineBounds b ↔ g.isWithinLineBounds b := by
  unfold GameState.isWithinLineBounds
  rw [h1, h2]

theorem lineCross_of_not_within (g : GameState) (inp : TickInput)
    (h : ¬g.isWithinLineBounds inp.bowPos) : g.lineCrossing inp = g := by
  unfold GameState.lineCrossing
  rw [if_neg (fun hc => h hc.2.2.2.2)]

/-- C5: a tick whose current bow X-coordinate lies outside the closed
pin-committee interval sets neither `hasCrossedLine` nor `raceFinished`,
no matter how the consecutive bow positions straddle the line Y. -/
theorem update_out_of_bounds_preserves_crossing (g : GameState) (inp : TickInput)
    (hout : ¬g.isWithinLineBounds inp.bowPos) :
    (g.Update inp).hasCrossedLine = g.hasCrossedLine ∧
      (g.Update inp).raceFinished = g.raceFinished := by
  have hwA : ¬((g.updateTimers inp.deltaTime).clearOCS inp.bowPos).isWithinLineBounds
      inp.bowPos := by
    rw [isWithinLineBounds_congr _ g]
    · exact hout
    · rw [clearOCS_lineStart, timers_lineStart]
    · rw [clearOCS_lineEnd, timers_lineEnd]
  simp only [GameState.Update]
  by_cases hs : (g.updateTimers inp.deltaTime).raceStarted = true
  · rw [if_pos hs, lineCross_of_not_within _ _ hwA]
    by_cases hMR : (((g.updateTimers inp.deltaTime).clearOCS inp.bowPos).hasCrossedLine &&
        !((g.updateTimers inp.deltaTime).clearOCS inp.bowPos).raceFinished) = true
    · rw [if_pos hMR]
      have hwC : ¬(((g.updateTimers inp.deltaTime).clearOCS inp.bowPos).updateMarkRounding
          inp.boatPos).isWithinLineBounds inp.bowPos := by
        rw [isWithinLineBounds_markRounding]
        exact hwA
      by_cases hF : ((((g.updateTimers inp.deltaTime).clearOCS inp.bowPos).updateMarkRounding
          inp.boatPos).hasCrossedLine &&
          (((g.updateTimers inp.deltaTime).clearOCS inp.bowPos).updateMarkRounding
            inp.boatPos).markRounded &&
          !(((g.updateTimers inp.deltaTime).clearOCS inp.bowPos).updateMarkRounding
            inp.boatPos).raceFinished) = true
      · rw [if_pos hF, checkFinish_of_not_within _ _ hwC]
        constructor <;>
          simp only [markRounding_hasCrossedLine, markRounding_raceFinished,
            clearOCS_hasCrossedLine, clearOCS_raceFinished, timers_hasCrossedLine,
            timers_raceFinished]
      · rw [if_neg hF]
        constructor <;>
          simp only [markRounding_hasCrossedLine, markRounding_raceFinished,
            clearOCS_hasCrossedLine, clearOCS_raceFinished, timers_hasCrossedLine,
            timers_raceFinished]
    · rw [if_neg hMR]
      by_cases hF : ((((g.updateTimers inp.deltaTime).clearOCS inp.bowPos).hasCrossedLine &&
          ((g.updateTimers inp.deltaTime).clearOCS inp.bowPos).markRounded &&
          !((g.updateTimers inp.deltaTime).clearOCS inp.bowPos).raceFinished) = true)
      · rw [if_pos hF, checkFinish_of_not_within _ _ hwA]
        constructor <;>
          simp only [clearOCS_hasCrossedLine, clearOCS_raceFinished,
            timers_hasCrossedLine, timers_raceFinished]
      · rw [if_neg hF]
        constructor <;>
          simp only [clearOCS_hasCrossedLine, clearOCS_raceFinished,
            timers_hasCrossedLine, timers_raceFinished]
  · rw [if_neg hs]
    constructor <;>
      simp only [prestart_hasCrossedLine, prestart_raceFinished,
        timers_hasCrossedLine, timers_raceFinished]

/-- Witness for C5: with the bow left of the pin, a line-Y straddle changes
neither flag. -/
theorem update_out_of_bounds_preserves_crossing_witness :
    ((initialGameState.Update ⟨30, ⟨500, 2390⟩, ⟨500, 2390⟩, 5, 10, 3⟩).hasCrossedLine =
        initialGameState.hasCrossedLine ∧
      (initialGameState.Update ⟨30, ⟨500, 2390⟩, ⟨500, 2390⟩, 5, 10, 3⟩).raceFinished =
        initialGameState.raceFinished) :=
  update_out_of_bounds_preserves_crossing initialGameState
    ⟨30, ⟨500, 2390⟩, ⟨500, 2390⟩, 5, 10, 3⟩
    (by norm_num [GameState.isWithinLineBounds, initialGameState])

/-- Invariants of the mark-rounding flags. -/
def GameState.MarkInv (g : GameState) : Prop :=
  (g.markRoundingPhase2 = true → g.markRoundingPhase1 = true) ∧
    (g.markRoundingPhase3 = true →
      g.markRoundingPhase1 = true ∧ g.markRoundingPhase2 = true) ∧
    g.markRounded = g.markRoundingPhase3

theorem markRounding_markInv {g : GameState} (p : Point) (h : g.MarkInv) :
    (g.updateMarkRounding p).MarkInv := by
  obtain ⟨h2, h3, hr⟩ := h
  unfold GameState.MarkInv GameState.updateMarkRounding
  split_ifs <;> simp_all [Bool.not_eq_false] <;> (try tauto) <;> split_ifs at * <;> simp_all <;> tauto

theorem markInv_of_eq (g' g : GameState)
    (e1 : g'.markRoundingPhase1 = g.markRoundingPhase1)
    (e2 : g'.markRoundingPhase2 = g.markRoundingPhase2)
    (e3 : g'.markRoundingPhase3 = g.markRoundingPhase3)
    (e4 : g'.markRounded = g.markRounded) (h : g.MarkInv) : g'.MarkInv := by
  unfold GameState.MarkInv at *
  rw [e1, e2, e3, e4]
  exact h

theorem timers_raceStarted_mono {g : GameState} (dt : ℚ)
    (h : g.raceStarted = true) : (g.updateTimers dt).raceStarted = true := by
  simp [GameState.updateTimers, h]

theorem clearOCS_isOCS_of_false {g : GameState} (b : Point)
    (h : g.isOCS = false) : (g.clearOCS b).isOCS = false := by
  simp [GameState.clearOCS, h]

/-- Cross-step safety invariant of the race state. -/
def GameState.StateInv (g : GameState) : Prop :=
  (g.raceFinished = true → g.raceStarted = true ∧ g.hasCrossedLine = true) ∧
    (g.hasCrossedLine = true → g.raceStarted = true ∧ g.isOCS = false) ∧
    g.MarkInv

theorem update_stateInv {g : GameState} (h : g.StateInv) (inp : TickInput) :
    (g.Update inp).StateInv := by
  obtain ⟨hF, hC, hM⟩ := h
  simp only [GameState.Update]
  by_cases hs : (g.updateTimers inp.deltaTime).raceStarted = true
  · rw [if_pos hs]
    have hA_rs : ((g.updateTimers inp.deltaTime).clearOCS inp.bowPos).raceStarted = true := by
      rw [clearOCS_raceStarted]; exact hs
    have hA_cr : ((g.updateTimers inp.deltaTime).clearOCS inp.bowPos).hasCrossedLine =
        g.hasCrossedLine := by rw [clearOCS_hasCrossedLine, timers_hasCrossedLine]
    have hA_fin : ((g.updateTimers inp.deltaTime).clearOCS inp.bowPos).raceFinished =
        g.raceFinished := by rw [clearOCS_raceFinished, timers_raceFinished]
    have hA_ocs : g.hasCrossedLine = true →
        ((g.updateTimers inp.deltaTime).clearOCS inp.bowPos).isOCS = false := by
      intro hcr
      apply clearOCS_isOCS_of_false
      rw [timers_isOCS]
      exact (hC hcr).2
    -- facts about the state after the line-crossing block
    have hB :
        (((g.updateTimers inp.deltaTime).clearOCS inp.bowPos).lineCrossing inp).raceStarted = true ∧
        ((((g.updateTimers inp.deltaTime).clearOCS inp.bowPos).lineCrossing inp).hasCrossedLine = true →
          (((g.updateTimers inp.deltaTime).clearOCS inp.bowPos).lineCrossing inp).isOCS = false) ∧
        (((g.updateTimers inp.deltaTime).clearOCS inp.bowPos).lineCrossing inp).raceFinished =
          g.raceFinished ∧
        ((((g.updateTimers inp.deltaTime).clearOCS inp.bowPos).lineCrossing inp).raceFinished = true →
          (((g.updateTimers inp.deltaTime).clearOCS inp.bowPos).lineCrossing inp).hasCrossedLine = true) ∧
        (((g.updateTimers inp.deltaTime).clearOCS inp.bowPos).lineCrossing inp).MarkInv := by
      unfold GameState.lineCrossing
      split_ifs with hcond
      · refine ⟨hA_rs, ?_, ?_, ?_, ?_⟩
        · intro _
          simp only
          have hocs : ¬((g.updateTimers inp.deltaTime).clearOCS inp.bowPos).isOCS = true :=
            hcond.2.1
          simpa using hocs
        · simp only [hA_fin]
        · intro _; simp only
        · refine markInv_of_eq _ g ?_ ?_ ?_ ?_ hM <;>
            simp only [clearOCS_markRoundingPhase1, clearOCS_markRoundingPhase2,
              clearOCS_markRoundingPhase3, clearOCS_markRounded,
              timers_markRoundingPhase1, timers_markRoundingPhase2,
              timers_markRoundingPhase3, timers_markRounded]
      · refine ⟨hA_rs, ?_, hA_fin, ?_, ?_⟩
        · rw [hA_cr]
          exact hA_ocs
        · rw [hA_cr, hA_fin]
          intro hf
          exact (hF hf).2
        · refine markInv_of_eq _ g ?_ ?_ ?_ ?_ hM <;>
            simp only [clearOCS_markRoundingPhase1, clearOCS_markRoundingPhase2,
              clearOCS_markRoundingPhase3, clearOCS_markRounded,
              timers_markRoundingPhase1, timers_markRoundingPhase2,
              timers_markRoundingPhase3, timers_markRounded]
    obtain ⟨hB_rs, hB_ocs, hB_fin, hB_fc, hB_mark⟩ := hB
    -- facts about the state after the optional mark-rounding block
    have hCfacts :
        ∀ gC : GameState, gC.raceStarted = true →
          (gC.hasCrossedLine = true → gC.isOCS = false) →
          (gC.raceFinished = true → gC.hasCrossedLine = true) → gC.MarkInv →
          (if gC.hasCrossedLine && gC.markRounded && !gC.raceFinished then
              gC.checkFinishLineCrossing inp.bowPos
            else gC).StateInv := by
      intro gC hrs hocs hfc hmk
      split_ifs with hfin
      · have h1 : gC.hasCrossedLine = true := by
          rcases Bool.and_eq_true_iff.mp (Bool.and_eq_true_iff.mp hfin).1 with ⟨ha, _⟩
          exact ha
        refine ⟨?_, ?_, ?_⟩
        · intro _
          rw [checkFinish_raceStarted, checkFinish_hasCrossedLine]
          exact ⟨hrs, h1⟩
        · rw [checkFinish_hasCrossedLine, checkFinish_isOCS, checkFinish_raceStarted]
          intro hcr
          exact ⟨hrs, hocs hcr⟩
        · refine markInv_of_eq _ gC ?_ ?_ ?_ ?_ hmk <;>
            simp only [checkFinish_markRoundingPhase1, checkFinish_markRoundingPhase2,
              checkFinish_markRoundingPhase3, checkFinish_markRounded]
      · exact ⟨fun hf => ⟨hrs, hfc hf⟩, fun hcr => ⟨hrs, hocs hcr⟩, hmk⟩
    by_cases hmr : ((((g.updateTimers inp.deltaTime).clearOCS inp.bowPos).lineCrossing
        inp).hasCrossedLine &&
        !(((g.updateTimers inp.deltaTime).clearOCS inp.bowPos).lineCrossing inp).raceFinished) = true
    · rw [if_pos hmr]
      have ha : (((g.updateTimers inp.deltaTime).clearOCS inp.bowPos).lineCrossing
          inp).hasCrossedLine = true := (Bool.and_eq_true_iff.mp hmr).1
      exact hCfacts _
        (by rw [markRounding_raceStarted]; exact hB_rs)
        (by rw [markRounding_hasCrossedLine, markRounding_isOCS]; exact hB_ocs)
        (by rw [markRounding_raceFinished, markRounding_hasCrossedLine]; intro _; exact ha)
        (markRounding_markInv _ hB_mark)
    · rw [if_neg hmr]
      exact hCfacts _ hB_rs hB_ocs hB_fc hB_mark
  · rw [if_neg hs]
    refine ⟨?_, ?_, ?_⟩
    · rw [prestart_raceFinished, timers_raceFinished]
      intro hf
      exact absurd (timers_raceStarted_mono inp.deltaTime (hF hf).1) hs
    · rw [prestart_hasCrossedLine, timers_hasCrossedLine]
      intro hcr
      exact absurd (timers_raceStarted_mono inp.deltaTime (hC hcr).1) hs
    · refine markInv_of_eq _ g ?_ ?_ ?_ ?_ hM <;>
        simp only [prestart_markRoundingPhase1, prestart_markRoundingPhase2,
          prestart_markRoundingPhase3, prestart_markRounded,
          timers_markRoundingPhase1, timers_markRoundingPhase2,
          timers_markRoundingPhase3, timers_markRounded]

theorem reachable_stateInv {g : GameState} (h : g.Reachable) : g.StateInv := by
  induction h with
  | init =>
      refine ⟨?_, ?_, ?_, ?_, rfl⟩ <;> intro hx <;> simp [initialGameState] at hx
  | step g inp hdt hr ih => exact update_stateInv ih inp

/-! ### A concrete race trace from `NewGame`

One crossing tick, mark rounding in phases, and a finish, used to witness
and refute tick-level claims on reachable states. -/

def raceTrace1 : GameState :=
  initialGameState.Update ⟨30, ⟨1000, 2395⟩, ⟨1000, 2395⟩, 0, 10, 3⟩

def raceTrace2 : GameState :=
  raceTrace1.Update ⟨1, ⟨1000, 1779⟩, ⟨1000, 1779⟩, 0, 10, 3⟩

def raceTrace3 : GameState :=
  raceTrace2.Update ⟨1, ⟨995, 1770⟩, ⟨995, 1770⟩, 0, 10, 3⟩

def raceTrace4 : GameState :=
  raceTrace3.Update ⟨1, ⟨995, 3561/2⟩, ⟨995, 3561/2⟩, 0, 10, 3⟩

def raceTrace5 : GameState :=
  raceTrace4.Update ⟨1, ⟨995, 1781⟩, ⟨995, 1781⟩, 0, 10, 3⟩

def raceTrace6 : GameState :=
  raceTrace5.Update ⟨1, ⟨1000, 2405⟩, ⟨1000, 2405⟩, 0, 10, 3⟩

theorem raceTrace1_eq :
    raceTrace1 =
      { timerDuration := 30, elapsedTime := 30, raceStarted := true,
        raceTimer := 30, isOCS := false, hasCrossedLine := true,
        lineCrossingTime := 30, secondsLate := 0, vmgAtCrossing := 3,
        speedPercentage := 0, prevBowPos := ⟨1000, 2395⟩,
        markRoundingPhase1 := false, markRoundingPhase2 := false,
        markRoundingPhase3 := false, markRounded := false,
        raceFinished := false, finishTime := 0,
        lineStart := ⟨800, 2400⟩, lineEnd := ⟨1200, 2400⟩,
        marks := [⟨800, 2400⟩, ⟨1200, 2400⟩, ⟨1000, 1780⟩] } := by
  norm_num [raceTrace1, GameState.Update, GameState.updateTimers,
    GameState.prestartOCS, GameState.clearOCS, GameState.lineCrossing,
    GameState.updateMarkRounding, GameState.checkFinishLineCrossing,
    GameState.isWithinLineBounds, initialGameState,
    GameState.mk.injEq, Point.mk.injEq,
    RealisticPolar.GetBoatSpeed, RealisticPolar.getSpeedAtAngle,
    RealisticPolar.interpolateFloat, RealisticPolar.interpolateAngle,
    RealisticPolar.findWindIndex, angleIndexOf, angleIndexLoop,
    windSpeedsList, anglesList, speedTable, beatVMGList, beatAnglesList]

theorem raceTrace2_eq :
    raceTrace2 =
      { timerDuration := 30, elapsedTime := 31, raceStarted := true,
        raceTimer := 31, isOCS := false, hasCrossedLine := true,
        lineCrossingTime := 30, secondsLate := 0, vmgAtCrossing := 3,
        speedPercentage := 0, prevBowPos := ⟨1000, 1779⟩,
        markRoundingPhase1 := true, markRoundingPhase2 := false,
        markRoundingPhase3 := false, markRounded := false,
        raceFinished := false, finishTime := 0,
        lineStart := ⟨800, 2400⟩, lineEnd := ⟨1200, 2400⟩,
        marks := [⟨800, 2400⟩, ⟨1200, 2400⟩, ⟨1000, 1780⟩] } := by
  rw [raceTrace2, raceTrace1_eq]
  norm_num [GameState.Update, GameState.updateTimers,
    GameState.prestartOCS, GameState.clearOCS, GameState.lineCrossing,
    GameState.updateMarkRounding, GameState.checkFinishLineCrossing,
    GameState.isWithinLineBounds, GameState.mk.injEq, Point.mk.injEq]

theorem raceTrace3_eq :
    raceTrace3 =
      { timerDuration := 30, elapsedTime := 32, raceStarted := true,
        raceTimer := 32, isOCS := false, hasCrossedLine := true,
        lineCrossingTime := 30, secondsLate := 0, vmgAtCrossing := 3,
        speedPercentage := 0, prevBowPos := ⟨995, 1770⟩,
        markRoundingPhase1 := true, markRoundingPhase2 := true,
        markRoundingPhase3 := false, markRounded := false,
        raceFinished := false, finishTime := 0,
        lineStart := ⟨800, 2400⟩, lineEnd := ⟨1200, 2400⟩,
        marks := [⟨800, 2400⟩, ⟨1200, 2400⟩, ⟨1000, 1780⟩] } := by
  rw [raceTrace3, raceTrace2_eq]
  norm_num [GameState.Update, GameState.updateTimers,
    GameState.prestartOCS, GameState.clearOCS, GameState.lineCrossing,
    GameState.updateMarkRounding, GameState.checkFinishLineCrossing,
    GameState.isWithinLineBounds, GameState.mk.injEq, Point.mk.injEq]

theorem raceTrace4_eq :
    raceTrace4 =
      { timerDuration := 30, elapsedTime := 33, raceStarted := true,
        raceTimer := 33, isOCS := false, hasCrossedLine := true,
        lineCrossingTime := 30, secondsLate := 0, vmgAtCrossing := 3,
        speedPercentage := 0, prevBowPos := ⟨995, 3561/2⟩,
        markRoundingPhase1 := true, markRoundingPhase2 := true,
        markRoundingPhase3 := false, markRounded := false,
        raceFinished := false, finishTime := 0,
        lineStart := ⟨800, 2400⟩, lineEnd := ⟨1200, 2400⟩,
        marks := [⟨800, 2400⟩, ⟨1200, 2400⟩, ⟨1000, 1780⟩] } := by
  rw [raceTrace4, raceTrace3_eq]
  norm_num [GameState.Update, GameState.updateTimers,
    GameState.prestartOCS, GameState.clearOCS, GameState.lineCrossing,
    GameState.updateMarkRounding, GameState.checkFinishLineCrossing,
    GameState.isWithinLineBounds, GameState.mk.injEq, Point.mk.injEq]

theorem raceTrace5_eq :
    raceTrace5 =
      { timerDuration := 30, elapsedTime := 34, raceStarted := true,
        raceTimer := 34, isOCS := false, hasCrossedLine := true,
        lineCrossingTime := 30, secondsLate := 0, vmgAtCrossing := 3,
        speedPercentage := 0, prevBowPos := ⟨995, 1781⟩,
        markRoundingPhase1 := true, markRoundingPhase2 := true,
        markRoundingPhase3 := true, markRounded := true,
        raceFinished := false, finishTime := 0,
        lineStart := ⟨800, 2400⟩, lineEnd := ⟨1200, 2400⟩,
        marks := [⟨800, 2400⟩, ⟨1200, 2400⟩, ⟨1000, 1780⟩] } := by
  rw [raceTrace5, raceTrace4_eq]
  norm_num [GameState.Update, GameState.updateTimers,
    GameState.prestartOCS, GameState.clearOCS, GameState.lineCrossing,
    GameState.updateMarkRounding, GameState.checkFinishLineCrossing,
    GameState.isWithinLineBounds, GameState.mk.injEq, Point.mk.injEq]

theorem raceTrace6_eq :
    raceTrace6 =
      { timerDuration := 30, elapsedTime := 35, raceStarted := true,
        raceTimer := 35, isOCS := false, hasCrossedLine := true,
        lineCrossingTime := 30, secondsLate := 0, vmgAtCrossing := 3,
        speedPercentage := 0, prevBowPos := ⟨1000, 2405⟩,
        markRoundingPhase1 := true, markRoundingPhase2 := true,
        markRoundingPhase3 := true, markRounded := true,
        raceFinished := true, finishTime := 35,
        lineStart := ⟨800, 2400⟩, lineEnd := ⟨1200, 2400⟩,
        marks := [⟨800, 2400⟩, ⟨1200, 2400⟩, ⟨1000, 1780⟩] } := by
  rw [raceTrace6, raceTrace5_eq]
  norm_num [GameState.Update, GameState.updateTimers,
    GameState.prestartOCS, GameState.clearOCS, GameState.lineCrossing,
    GameState.updateMarkRounding, GameState.checkFinishLineCrossing,
    GameState.isWithinLineBounds, GameState.mk.injEq, Point.mk.injEq]

theorem raceTrace3_reachable : raceTrace3.Reachable := by
  refine GameState.Reachable.step _ _ (by norm_num)
    (GameState.Reachable.step _ _ (by norm_num)
      (GameState.Reachable.step _ _ (by norm_num) GameState.Reachable.init))

theorem raceTrace6_reachable : raceTrace6.Reachable := by
  refine GameState.Reachable.step _ _ (by norm_num)
    (GameState.Reachable.step _ _ (by norm_num)
      (GameState.Reachable.step _ _ (by norm_num) raceTrace3_reachable))

/-! ### Terminal behavior after the finish (C6) -/

theorem lineCross_of_crossed (g : GameState) (inp : TickInput)
    (h : g.hasCrossedLine = true) : g.lineCrossing inp = g := by
  unfold GameState.lineCrossing
  rw [if_neg (fun hc => hc.1 h)]

theorem timers_raceTimer_of_finished {g : GameState} (dt : ℚ)
    (h1 : g.raceStarted = true) (h2 : g.raceFinished = true) :
    (g.updateTimers dt).raceTimer = g.raceTimer := by
  simp [GameState.updateTimers, h1, h2]

/-- C6 (amended): once `raceFinished` holds in a reachable race state, a
tick leaves every race flag and record unchanged — `raceStarted`, `isOCS`,
`hasCrossedLine`, `lineCrossingTime`, `secondsLate`, `speedPercentage`,
`vmgAtCrossing`, the mark-rounding phases, `markRounded`, `raceFinished`,
`finishTime` and `raceTimer` — except `prevBowPos`, which is overwritten
with the current bow position every tick. -/
theorem update_after_finish {g : GameState} (hr : g.Reachable)
    (hf : g.raceFinished = true) (inp : TickInput) :
    (g.Update inp).raceStarted = g.raceStarted ∧
      (g.Update inp).isOCS = g.isOCS ∧
      (g.Update inp).hasCrossedLine = g.hasCrossedLine ∧
      (g.Update inp).lineCrossingTime = g.lineCrossingTime ∧
      (g.Update inp).secondsLate = g.secondsLate ∧
      (g.Update inp).speedPercentage = g.speedPercentage ∧
      (g.Update inp).vmgAtCrossing = g.vmgAtCrossing ∧
      (g.Update inp).markRoundingPhase1 = g.markRoundingPhase1 ∧
      (g.Update inp).markRoundingPhase2 = g.markRoundingPhase2 ∧
      (g.Update inp).markRoundingPhase3 = g.markRoundingPhase3 ∧
      (g.Update inp).markRounded = g.markRounded ∧
      (g.Update inp).raceFinished = g.raceFinished ∧
      (g.Update inp).finishTime = g.finishTime ∧
      (g.Update inp).raceTimer = g.raceTimer ∧
      (g.Update inp).prevBowPos = inp.bowPos := by
  obtain ⟨hFI, hCI, _⟩ := reachable_stateInv hr
  obtain ⟨hrs, hcr⟩ := hFI hf
  have hocs := (hCI hcr).2
  simp only [GameState.Update]
  have hs : (g.updateTimers inp.deltaTime).raceStarted = true :=
    timers_raceStarted_mono _ hrs
  rw [if_pos hs]
  have hA1 : ((g.updateTimers inp.deltaTime).clearOCS inp.bowPos).hasCrossedLine = true := by
    rw [clearOCS_hasCrossedLine, timers_hasCrossedLine]; exact hcr
  have hAf : ((g.updateTimers inp.deltaTime).clearOCS inp.bowPos).raceFinished = true := by
    rw [clearOCS_raceFinished, timers_raceFinished]; exact hf
  rw [lineCross_of_crossed _ _ hA1]
  rw [if_neg (by simp [hAf] : ¬(((g.updateTimers inp.deltaTime).clearOCS
    inp.bowPos).hasCrossedLine &&
    !((g.updateTimers inp.deltaTime).clearOCS inp.bowPos).raceFinished) = true)]
  rw [if_neg (by simp [hAf] : ¬(((g.updateTimers inp.deltaTime).clearOCS
    inp.bowPos).hasCrossedLine &&
    ((g.updateTimers inp.deltaTime).clearOCS inp.bowPos).markRounded &&
    !((g.updateTimers inp.deltaTime).clearOCS inp.bowPos).raceFinished) = true)]
  refine ⟨?_, ?_, ?_, ?_, ?_, ?_, ?_, ?_, ?_, ?_, ?_, ?_, ?_, ?_, ?_⟩
  · rw [clearOCS_raceStarted, timers_raceStarted_mono inp.deltaTime hrs, hrs]
  · rw [clearOCS_isOCS_of_false inp.bowPos (by rw [timers_isOCS]; exact hocs), hocs]
  · rw [clearOCS_hasCrossedLine, timers_hasCrossedLine]
  · rw [clearOCS_lineCrossingTime, timers_lineCrossingTime]
  · rw [clearOCS_secondsLate, timers_secondsLate]
  · rw [clearOCS_speedPercentage, timers_speedPercentage]
  · rw [clearOCS_vmgAtCrossing, timers_vmgAtCrossing]
  · rw [clearOCS_markRoundingPhase1, timers_markRoundingPhase1]
  · rw [clearOCS_markRoundingPhase2, timers_markRoundingPhase2]
  · rw [clearOCS_markRoundingPhase3, timers_markRoundingPhase3]
  · rw [clearOCS_markRounded, timers_markRounded]
  · rw [clearOCS_raceFinished, timers_raceFinished]
  · rw [clearOCS_finishTime, timers_finishTime]
  · rw [clearOCS_raceTimer, timers_raceTimer_of_finished inp.deltaTime hrs hf]
  · trivial

/-! ### Mark-rounding phase behavior (C3, C4) -/

theorem updateMarkRounding_congr (g' g : GameState) (p : Point)
    (e0 : g'.marks = g.marks)
    (e1 : g'.markRoundingPhase1 = g.markRoundingPhase1)
    (e2 : g'.markRoundingPhase2 = g.markRoundingPhase2)
    (e3 : g'.markRoundingPhase3 = g.markRoundingPhase3)
    (e4 : g'.markRounded = g.markRounded) :
    (g'.updateMarkRounding p).markRoundingPhase1 =
        (g.updateMarkRounding p).markRoundingPhase1 ∧
      (g'.updateMarkRounding p).markRoundingPhase2 =
        (g.updateMarkRounding p).markRoundingPhase2 ∧
      (g'.updateMarkRounding p).markRoundingPhase3 =
        (g.updateMarkRounding p).markRoundingPhase3 ∧
      (g'.updateMarkRounding p).markRounded =
        (g.updateMarkRounding p).markRounded := by
  unfold GameState.updateMarkRounding
  rw [e0, e1, e2, e3, e4]
  by_cases hlen : g.marks.length < 3
  · rw [if_pos hlen, if_pos hlen]
    exact ⟨e1, e2, e3, e4⟩
  · rw [if_neg hlen, if_neg hlen]
    exact ⟨rfl, rfl, rfl, rfl⟩

/-- In one tick the mark-rounding flags are either untouched or transformed
exactly as `updateMarkRounding` at the tick's boat position. -/
theorem update_phases_cases (g : GameState) (inp : TickInput) :
    ((g.Update inp).markRoundingPhase1 = g.markRoundingPhase1 ∧
      (g.Update inp).markRoundingPhase2 = g.markRoundingPhase2 ∧
      (g.Update inp).markRoundingPhase3 = g.markRoundingPhase3 ∧
      (g.Update inp).markRounded = g.markRounded) ∨
    ((g.Update inp).markRoundingPhase1 =
        (g.updateMarkRounding inp.boatPos).markRoundingPhase1 ∧
      (g.Update inp).markRoundingPhase2 =
        (g.updateMarkRounding inp.boatPos).markRoundingPhase2 ∧
      (g.Update inp).markRoundingPhase3 =
        (g.updateMarkRounding inp.boatPos).markRoundingPhase3 ∧
      (g.Update inp).markRounded = (g.updateMarkRounding inp.boatPos).markRounded) := by
  simp only [GameState.Update]
  by_cases hs : (g.updateTimers inp.deltaTime).raceStarted = true
  · rw [if_pos hs]
    by_cases hmr : ((((g.updateTimers inp.deltaTime).clearOCS inp.bowPos).lineCrossing
        inp).hasCrossedLine &&
        !(((g.updateTimers inp.deltaTime).clearOCS inp.bowPos).lineCrossing
          inp).raceFinished) = true
    · rw [if_pos hmr]
      right
      have hcongr := updateMarkRounding_congr
        (((g.updateTimers inp.deltaTime).clearOCS inp.bowPos).lineCrossing inp) g inp.boatPos
        (by rw [lineCross_marks, clearOCS_marks, timers_marks])
        (by rw [lineCross_markRoundingPhase1, clearOCS_markRoundingPhase1,
            timers_markRoundingPhase1])
        (by rw [lineCross_markRoundingPhase2, clearOCS_markRoundingPhase2,
            timers_markRoundingPhase2])
        (by rw [lineCross_markRoundingPhase3, clearOCS_markRoundingPhase3,
            timers_markRoundingPhase3])
        (by rw [lineCross_markRounded, clearOCS_markRounded, timers_markRounded])
      split_ifs with hfin
      · refine ⟨?_, ?_, ?_, ?_⟩ <;>
          simp only [checkFinish_markRoundingPhase1, checkFinish_markRoundingPhase2,
            checkFinish_markRoundingPhase3, checkFinish_markRounded,
            hcongr.1, hcongr.2.1, hcongr.2.2.1, hcongr.2.2.2]
      · refine ⟨?_, ?_, ?_, ?_⟩ <;>
          simp only [hcongr.1, hcongr.2.1, hcongr.2.2.1, hcongr.2.2.2]
    · rw [if_neg hmr]
      left
      split_ifs with hfin
      · refine ⟨?_, ?_, ?_, ?_⟩ <;>
          simp only [checkFinish_markRoundingPhase1, checkFinish_markRoundingPhase2,
            checkFinish_markRoundingPhase3, checkFinish_markRounded,
            lineCross_markRoundingPhase1, lineCross_markRoundingPhase2,
            lineCross_markRoundingPhase3, lineCross_markRounded,
            clearOCS_markRoundingPhase1, clearOCS_markRoundingPhase2,
            clearOCS_markRoundingPhase3, clearOCS_markRounded,
            timers_markRoundingPhase1, timers_markRoundingPhase2,
            timers_markRoundingPhase3, timers_markRounded]
      · refine ⟨?_, ?_, ?_, ?_⟩ <;>
          simp only [lineCross_markRoundingPhase1, lineCross_markRoundingPhase2,
            lineCross_markRoundingPhase3, lineCross_markRounded,
            clearOCS_markRoundingPhase1, clearOCS_markRoundingPhase2,
            clearOCS_markRoundingPhase3, clearOCS_markRounded,
            timers_markRoundingPhase1, timers_markRoundingPhase2,
            timers_markRoundingPhase3, timers_markRounded]
  · rw [if_neg hs]
    left
    refine ⟨?_, ?_, ?_, ?_⟩ <;>
      simp only [prestart_markRoundingPhase1, prestart_markRoundingPhase2,
        prestart_markRoundingPhase3, prestart_markRounded,
        timers_markRoundingPhase1, timers_markRoundingPhase2,
        timers_markRoundingPhase3, timers_markRounded]

theorem updateMarkRounding_phase1_iff {g : GameState} (p : Point)
    (hlen : 3 ≤ g.marks.length) :
    ((g.updateMarkRounding p).markRoundingPhase1 = true ↔
      (g.markRoundingPhase1 = true ∨ p.Y ≤ (g.marks.getD 2 ⟨0, 0⟩).Y - 1)) := by
  simp only [GameState.updateMarkRounding]
  rw [if_neg (by omega : ¬g.marks.length < 3)]
  cases hb1 : g.markRoundingPhase1 <;> simp only [hb1] <;>
    split_ifs <;> simp_all

theorem updateMarkRounding_reset {g : GameState} (p : Point)
    (h1 : g.markRoundingPhase1 = true) (h2 : g.markRoundingPhase2 = true)
    (hres : (g.updateMarkRounding p).markRoundingPhase2 = false) :
    (g.updateMarkRounding p).markRoundingPhase1 = true ∧
      g.markRoundingPhase3 = false ∧
      p.Y < (g.marks.getD 2 ⟨0, 0⟩).Y ∧ (g.marks.getD 2 ⟨0, 0⟩).X < p.X := by
  simp only [GameState.updateMarkRounding] at *
  cases hb3 : g.markRoundingPhase3 <;>
    simp_all <;> split_ifs at * <;> simp_all <;> linarith

theorem updateMarkRounding_south_keep {g : GameState} (p : Point)
    (h2 : g.markRoundingPhase2 = true)
    (hsouth : (g.marks.getD 2 ⟨0, 0⟩).Y ≤ p.Y) :
    (g.updateMarkRounding p).markRoundingPhase2 = true := by
  simp only [GameState.updateMarkRounding]
  cases hb1 : g.markRoundingPhase1 <;>
    cases hb3 : g.markRoundingPhase3 <;>
    simp_all <;> split_ifs <;> simp_all <;> linarith

theorem clearOCS_isOCS (g : GameState) (b : Point) :
    (g.clearOCS b).isOCS =
      if g.isOCS = true ∧ 2400 < b.Y ∧ g.isWithinLineBounds b then false
      else g.isOCS := rfl

theorem prestartOCS_isOCS (g : GameState) (b : Point) :
    (g.prestartOCS b).isOCS =
      if (if b.Y ≤ 2400 ∧ g.isWithinLineBounds b then true else g.isOCS) = true ∧
          2400 < b.Y ∧ g.isWithinLineBounds b then false
      else if b.Y ≤ 2400 ∧ g.isWithinLineBounds b then true else g.isOCS := rfl

/-- The tick's effect on `isOCS`, by start status. -/
theorem update_isOCS (g : GameState) (inp : TickInput) :
    (g.Update inp).isOCS =
      if (g.updateTimers inp.deltaTime).raceStarted = true then
        (if g.isOCS = true ∧ 2400 < inp.bowPos.Y ∧ g.isWithinLineBounds inp.bowPos then
          false
        else g.isOCS)
      else
        (if (if inp.bowPos.Y ≤ 2400 ∧ g.isWithinLineBounds inp.bowPos then true
              else g.isOCS) = true ∧
            2400 < inp.bowPos.Y ∧ g.isWithinLineBounds inp.bowPos then false
        else
          if inp.bowPos.Y ≤ 2400 ∧ g.isWithinLineBounds inp.bowPos then true
          else g.isOCS) := by
  have hW : ∀ b : Point,
      (g.updateTimers inp.deltaTime).isWithinLineBounds b ↔ g.isWithinLineBounds b :=
    fun b => isWithinLineBounds_congr _ _ (timers_lineStart g inp.deltaTime)
      (timers_lineEnd g inp.deltaTime) b
  by_cases hs : (g.updateTimers inp.deltaTime).raceStarted = true
  · rw [if_pos hs]
    have h1 : (g.Update inp).isOCS =
        ((g.updateTimers inp.deltaTime).clearOCS inp.bowPos).isOCS := by
      simp only [GameState.Update]
      rw [if_pos hs]
      split_ifs <;>
        simp only [checkFinish_isOCS, markRounding_isOCS, lineCross_isOCS]
    rw [h1, clearOCS_isOCS, timers_isOCS]
    simp only [hW]
  · rw [if_neg hs]
    have h1 : (g.Update inp).isOCS =
        ((g.updateTimers inp.deltaTime).prestartOCS inp.bowPos).isOCS := by
      simp only [GameState.Update]
      rw [if_neg hs]
    rw [h1, prestartOCS_isOCS, timers_isOCS]
    simp only [hW]

/-- C2 (amended): before the start signal, a tick whose bow position sits at
or beyond the start-line Y within the pin/committee X-bounds sets `isOCS`;
after the start signal a tick never sets `isOCS`; and `isOCS` is cleared
only in a tick whose bow is back on the pre-start side of the line within
the same bounds. -/
theorem ocs_set_pre_start_clear_in_bounds (g : GameState) (inp : TickInput) :
    (¬(g.updateTimers inp.deltaTime).raceStarted = true →
        inp.bowPos.Y ≤ 2400 → g.isWithinLineBounds inp.bowPos →
        (g.Update inp).isOCS = true) ∧
      ((g.updateTimers inp.deltaTime).raceStarted = true →
        (g.Update inp).isOCS = true → g.isOCS = true) ∧
      (g.isOCS = true → (g.Update inp).isOCS = false →
        2400 < inp.bowPos.Y ∧ g.isWithinLineBounds inp.bowPos) := by
  rw [update_isOCS]
  by_cases hs : (g.updateTimers inp.deltaTime).raceStarted = true
  · rw [if_pos hs]
    refine ⟨fun hns => absurd hs hns, fun _ => ?_, fun ho => ?_⟩
    · split_ifs with h
      · intro hc
        exact absurd hc (by simp)
      · exact fun hc => hc
    · split_ifs with h
      · exact fun _ => ⟨h.2.1, h.2.2⟩
      · intro hcon
        rw [ho] at hcon
        exact absurd hcon (by simp)
  · rw [if_neg hs]
    refine ⟨fun _ hy hw => ?_, fun hs' => absurd hs' hs, fun ho => ?_⟩
    · have hv : (if inp.bowPos.Y ≤ 2400 ∧ g.isWithinLineBounds inp.bowPos then true
          else g.isOCS) = true := if_pos ⟨hy, hw⟩
      rw [if_neg (fun hc => absurd hc.2.1 (not_lt.mpr hy)), hv]
    · intro hres
      split_ifs at hres with h1 h2 h3
      all_goals first
        | exact ⟨h2.2.1, h2.2.2⟩
        | exact ⟨h3.2.1, h3.2.2⟩
        | (rw [ho] at hres; exact absurd hres (by simp))
        | exact absurd hres (by simp)

/-- Witness for C2: a pre-start tick with the bow over the line inside the
bounds sets `isOCS`. -/
theorem ocs_set_pre_start_clear_in_bounds_witness :
    (initialGameState.Update ⟨1, ⟨1000, 2395⟩, ⟨1000, 2395⟩, 0, 10, 3⟩).isOCS = true :=
  (ocs_set_pre_start_clear_in_bounds initialGameState
      ⟨1, ⟨1000, 2395⟩, ⟨1000, 2395⟩, 0, 10, 3⟩).1
    (by norm_num [GameState.updateTimers, initialGameState])
    (by norm_num)
    (by norm_num [GameState.isWithinLineBounds, initialGameState])

/-- C2 counterexample: in the first tick after the start signal the bow
crosses from `Y = 2580` to `Y = 2395`, inside the line bounds, yet `isOCS`
stays `false` (the tick records a line crossing instead): after the start,
crossing onto the course side does not set `isOCS`. -/
theorem ocs_not_set_post_start_counterexample :
    initialGameState.prevBowPos.Y > 2400 ∧ (2395 : ℚ) ≤ 2400 ∧
      initialGameState.isWithinLineBounds ⟨1000, 2395⟩ ∧
      raceTrace1.raceStarted = true ∧ raceTrace1.isOCS = false := by
  refine ⟨by norm_num [initialGameState], by norm_num,
    by norm_num [GameState.isWithinLineBounds, initialGameState], ?_, ?_⟩ <;>
    rw [raceTrace1_eq]

/-- C3 (amended): on reachable race states, phase 2 implies phase 1, phase 3
implies phases 1 and 2, and `markRounded` holds exactly when all three
phases hold.  In a tick, phase 2 is reset (true to false) only by an
east-drift while still north of the upwind mark, and then phase 1 stays
true; a drift to or past the mark's Y with phase 2 set and phase 3 unset
does not reset phase 2. -/
theorem markRounding_phase_order {g : GameState} (hr : g.Reachable)
    (inp : TickInput) :
    (g.markRoundingPhase2 = true → g.markRoundingPhase1 = true) ∧
      (g.markRoundingPhase3 = true →
        g.markRoundingPhase1 = true ∧ g.markRoundingPhase2 = true) ∧
      (g.markRounded = true ↔
        g.markRoundingPhase1 = true ∧ g.markRoundingPhase2 = true ∧
          g.markRoundingPhase3 = true) ∧
      (g.markRoundingPhase2 = true → (g.Update inp).markRoundingPhase2 = false →
        (g.Update inp).markRoundingPhase1 = true ∧ g.markRoundingPhase3 = false ∧
          inp.boatPos.Y < (g.marks.getD 2 ⟨0, 0⟩).Y ∧
          (g.marks.getD 2 ⟨0, 0⟩).X < inp.boatPos.X) ∧
      (g.markRoundingPhase2 = true → g.markRoundingPhase3 = false →
        (g.marks.getD 2 ⟨0, 0⟩).Y ≤ inp.boatPos.Y →
        (g.Update inp).markRoundingPhase2 = true) := by
  obtain ⟨-, -, h12, h123, hrd⟩ := reachable_stateInv hr
  refine ⟨h12, h123, ?_, ?_, ?_⟩
  · rw [hrd]
    exact ⟨fun h3 => ⟨(h123 h3).1, (h123 h3).2, h3⟩, fun h => h.2.2⟩
  · intro h2t hreset
    rcases update_phases_cases g inp with hsame | htr
    · rw [hsame.2.1] at hreset
      exact absurd (h2t.symm.trans hreset) (by simp)
    · rw [htr.2.1] at hreset
      obtain ⟨hp1, hp3, hS, hE⟩ :=
        updateMarkRounding_reset inp.boatPos (h12 h2t) h2t hreset
      exact ⟨by rw [htr.1]; exact hp1, hp3, hS, hE⟩
  · intro h2t h3f hsouth
    rcases update_phases_cases g inp with hsame | htr
    · rw [hsame.2.1]
      exact h2t
    · rw [htr.2.1]
      exact updateMarkRounding_south_keep inp.boatPos h2t hsouth

/-- Witness for C3 at a reachable state with phases 1-2 complete and a
south-drift tick. -/
theorem markRounding_phase_order_witness :
    ((raceTrace3.markRoundingPhase2 = true → raceTrace3.markRoundingPhase1 = true) ∧
      (raceTrace3.markRoundingPhase3 = true →
        raceTrace3.markRoundingPhase1 = true ∧ raceTrace3.markRoundingPhase2 = true) ∧
      (raceTrace3.markRounded = true ↔
        raceTrace3.markRoundingPhase1 = true ∧ raceTrace3.markRoundingPhase2 = true ∧
          raceTrace3.markRoundingPhase3 = true) ∧
      (raceTrace3.markRoundingPhase2 = true →
        (raceTrace3.Update ⟨1, ⟨995, 3561/2⟩, ⟨995, 3561/2⟩, 0, 10, 3⟩).markRoundingPhase2 = false →
        (raceTrace3.Update ⟨1, ⟨995, 3561/2⟩, ⟨995, 3561/2⟩, 0, 10, 3⟩).markRoundingPhase1 = true ∧
          raceTrace3.markRoundingPhase3 = false ∧
          (⟨995, 3561/2⟩ : Point).Y < (raceTrace3.marks.getD 2 ⟨0, 0⟩).Y ∧
          (raceTrace3.marks.getD 2 ⟨0, 0⟩).X < (⟨995, 3561/2⟩ : Point).X) ∧
      (raceTrace3.markRoundingPhase2 = true → raceTrace3.markRoundingPhase3 = false →
        (raceTrace3.marks.getD 2 ⟨0, 0⟩).Y ≤ (⟨995, 3561/2⟩ : Point).Y →
        (raceTrace3.Update ⟨1, ⟨995, 3561/2⟩, ⟨995, 3561/2⟩, 0, 10, 3⟩).markRoundingPhase2 = true)) :=
  markRounding_phase_order raceTrace3_reachable ⟨1, ⟨995, 3561/2⟩, ⟨995, 3561/2⟩, 0, 10, 3⟩

/-- C3 counterexample: at the reachable state with phases 1 and 2 complete
and phase 3 pending, a premature drift back south of the upwind mark (to
`Y = 1780.5`, south of the mark's `Y = 1780` but short of the phase-3 band)
does NOT reset phase 2 — the claimed south-drift reset does not exist in
the code (the corresponding assignment only runs when phase 2 is still
false). -/
theorem markRounding_south_drift_counterexample :
    raceTrace3.Reachable ∧
      raceTrace3.markRoundingPhase2 = true ∧
      raceTrace3.markRoundingPhase3 = false ∧
      (raceTrace3.marks.getD 2 ⟨0, 0⟩).Y ≤ (3561/2 : ℚ) ∧
      raceTrace4.markRoundingPhase3 = false ∧
      raceTrace4.markRoundingPhase2 = true := by
  refine ⟨raceTrace3_reachable, ?_, ?_, ?_, ?_, ?_⟩
  · rw [raceTrace3_eq]
  · rw [raceTrace3_eq]
  · rw [raceTrace3_eq]
    norm_num
  · rw [raceTrace4_eq]
  · rw [raceTrace4_eq]

/-! ### Phase 1 uses the boat centre, not the bow (C4) -/

/-- `Boat.GetBowPosition` (pkg/game/objects/boat.go): the bow is half the
boat height (7.5 world units) ahead of the boat centre along the heading. -/
noncomputable def GetBowPosition (pos : ℝ × ℝ) (heading : ℝ) : ℝ × ℝ :=
  let headingRad := heading * Real.pi / 180
  let bowDistance : ℝ := 15.0 / 2
  (pos.1 + bowDistance * Real.sin headingRad,
    pos.2 - bowDistance * Real.cos headingRad)

/-- C4 (amended): with the race started, the line crossed, the race
unfinished and the three-mark course present, a tick makes
`markRoundingPhase1` true exactly when it was already true or the boat's
centre position satisfies `boatY ≤ markY - 1`; the bow position plays no
role in this check. -/
theorem phase1_centre_condition {g : GameState} (inp : TickInput)
    (hs : (g.updateTimers inp.deltaTime).raceStarted = true)
    (hcr : g.hasCrossedLine = true) (hnf : g.raceFinished = false)
    (hlen : 3 ≤ g.marks.length) :
    ((g.Update inp).markRoundingPhase1 = true ↔
      (g.markRoundingPhase1 = true ∨
        inp.boatPos.Y ≤ (g.marks.getD 2 ⟨0, 0⟩).Y - 1)) := by
  have hA1 : ((g.updateTimers inp.deltaTime).clearOCS inp.bowPos).hasCrossedLine = true := by
    rw [clearOCS_hasCrossedLine, timers_hasCrossedLine]; exact hcr
  have hAf : ((g.updateTimers inp.deltaTime).clearOCS inp.bowPos).raceFinished = false := by
    rw [clearOCS_raceFinished, timers_raceFinished]; exact hnf
  have hcongr := updateMarkRounding_congr
    ((g.updateTimers inp.deltaTime).clearOCS inp.bowPos) g inp.boatPos
    (by rw [clearOCS_marks, timers_marks])
    (by rw [clearOCS_markRoundingPhase1, timers_markRoundingPhase1])
    (by rw [clearOCS_markRoundingPhase2, timers_markRoundingPhase2])
    (by rw [clearOCS_markRoundingPhase3, timers_markRoundingPhase3])
    (by rw [clearOCS_markRounded, timers_markRounded])
  simp only [GameState.Update]
  rw [if_pos hs, lineCross_of_crossed _ _ hA1,
    if_pos (show (((g.updateTimers inp.deltaTime).clearOCS inp.bowPos).hasCrossedLine &&
        !((g.updateTimers inp.deltaTime).clearOCS inp.bowPos).raceFinished) = true by
      simp [hA1, hAf])]
  split_ifs with hfin
  · rw [checkFinish_markRoundingPhase1, hcongr.1]
    exact updateMarkRounding_phase1_iff inp.boatPos hlen
  · rw [hcongr.1]
    exact updateMarkRounding_phase1_iff inp.boatPos hlen

/-- Witness for C4: at the reachable post-crossing state, a tick with the
boat centre one metre past the mark sets phase 1. -/
theorem phase1_centre_condition_witness :
    ((raceTrace1.Update ⟨1, ⟨1000, 1779⟩, ⟨1000, 1779⟩, 0, 10, 3⟩).markRoundingPhase1 = true ↔
      (raceTrace1.markRoundingPhase1 = true ∨
        (⟨1000, 1779⟩ : Point).Y ≤ (raceTrace1.marks.getD 2 ⟨0, 0⟩).Y - 1)) :=
  phase1_centre_condition ⟨1, ⟨1000, 1779⟩, ⟨1000, 1779⟩, 0, 10, 3⟩
    (by rw [raceTrace1_eq]; norm_num [GameState.updateTimers])
    (by rw [raceTrace1_eq])
    (by rw [raceTrace1_eq])
    (by rw [raceTrace1_eq]; norm_num)

/-- C4 counterexample: with the upwind mark at `(1000, 1780)` and heading
north, a boat centred at `(1000, 1785)` has its bow at `(1000, 1777.5)`,
satisfying the claimed bow condition `bowY ≤ markY - 1`; yet the tick does
not set `markRoundingPhase1`, because the code tests the boat's centre
position. -/
theorem phase1_bow_counterexample :
    GetBowPosition (1000, 1785) 0 = ((1000 : ℝ), (3555/2 : ℝ)) ∧
      (GetBowPosition (1000, 1785) 0).2 ≤ (1780 : ℝ) - 1 ∧
      raceTrace1.Reachable ∧
      (raceTrace1.Update
        ⟨1, ⟨1000, 1785⟩, ⟨1000, 3555/2⟩, 0, 10, 3⟩).markRoundingPhase1 = false := by
  have hbow : GetBowPosition (1000, 1785) 0 = ((1000 : ℝ), (3555/2 : ℝ)) := by
    norm_num [GetBowPosition, Real.sin_zero, Real.cos_zero]
  refine ⟨hbow, by rw [hbow]; norm_num, ?_, ?_⟩
  · exact GameState.Reachable.step _ _ (by norm_num) GameState.Reachable.init
  · rw [raceTrace1_eq]
    norm_num [GameState.Update, GameState.updateTimers, GameState.prestartOCS,
      GameState.clearOCS, GameState.lineCrossing, GameState.updateMarkRounding,
      GameState.checkFinishLineCrossing, GameState.isWithinLineBounds]

theorem update_prevBowPos (g : GameState) (inp : TickInput) :
    (g.Update inp).prevBowPos = inp.bowPos := rfl

/-- Witness for C6 at the reachable finished state. -/
theorem update_after_finish_witness :
    (raceTrace6.Update ⟨1, ⟨1100, 2450⟩, ⟨1100, 2450⟩, 0, 10, 3⟩).raceStarted =
        raceTrace6.raceStarted ∧
      (raceTrace6.Update ⟨1, ⟨1100, 2450⟩, ⟨1100, 2450⟩, 0, 10, 3⟩).isOCS = raceTrace6.isOCS ∧
      (raceTrace6.Update ⟨1, ⟨1100, 2450⟩, ⟨1100, 2450⟩, 0, 10, 3⟩).hasCrossedLine =
        raceTrace6.hasCrossedLine ∧
      (raceTrace6.Update ⟨1, ⟨1100, 2450⟩, ⟨1100, 2450⟩, 0, 10, 3⟩).lineCrossingTime =
        raceTrace6.lineCrossingTime ∧
      (raceTrace6.Update ⟨1, ⟨1100, 2450⟩, ⟨1100, 2450⟩, 0, 10, 3⟩).secondsLate =
        raceTrace6.secondsLate ∧
      (raceTrace6.Update ⟨1, ⟨1100, 2450⟩, ⟨1100, 2450⟩, 0, 10, 3⟩).speedPercentage =
        raceTrace6.speedPercentage ∧
      (raceTrace6.Update ⟨1, ⟨1100, 2450⟩, ⟨1100, 2450⟩, 0, 10, 3⟩).vmgAtCrossing =
        raceTrace6.vmgAtCrossing ∧
      (raceTrace6.Update ⟨1, ⟨1100, 2450⟩, ⟨1100, 2450⟩, 0, 10, 3⟩).markRoundingPhase1 =
        raceTrace6.markRoundingPhase1 ∧
      (raceTrace6.Update ⟨1, ⟨1100, 2450⟩, ⟨1100, 2450⟩, 0, 10, 3⟩).markRoundingPhase2 =
        raceTrace6.markRoundingPhase2 ∧
      (raceTrace6.Update ⟨1, ⟨1100, 2450⟩, ⟨1100, 2450⟩, 0, 10, 3⟩).markRoundingPhase3 =
        raceTrace6.markRoundingPhase3 ∧
      (raceTrace6.Update ⟨1, ⟨1100, 2450⟩, ⟨1100, 2450⟩, 0, 10, 3⟩).markRounded =
        raceTrace6.markRounded ∧
      (raceTrace6.Update ⟨1, ⟨1100, 2450⟩, ⟨1100, 2450⟩, 0, 10, 3⟩).raceFinished =
        raceTrace6.raceFinished ∧
      (raceTrace6.Update ⟨1, ⟨1100, 2450⟩, ⟨1100, 2450⟩, 0, 10, 3⟩).finishTime =
        raceTrace6.finishTime ∧
      (raceTrace6.Update ⟨1, ⟨1100, 2450⟩, ⟨1100, 2450⟩, 0, 10, 3⟩).raceTimer =
        raceTrace6.raceTimer ∧
      (raceTrace6.Update ⟨1, ⟨1100, 2450⟩, ⟨1100, 2450⟩, 0, 10, 3⟩).prevBowPos =
        (⟨1100, 2450⟩ : Point) :=
  update_after_finish raceTrace6_reachable (by rw [raceTrace6_eq])
    ⟨1, ⟨1100, 2450⟩, ⟨1100, 2450⟩, 0, 10, 3⟩

/-- C6 counterexample: at the reachable finished state the next tick still
overwrites `prevBowPos` with the current bow position, so the race state is
not left entirely unchanged. -/
theorem update_after_finish_counterexample :
    raceTrace6.Reachable ∧ raceTrace6.raceFinished = true ∧
      (raceTrace6.Update ⟨1, ⟨1100, 2450⟩, ⟨1100, 2450⟩, 0, 10, 3⟩).prevBowPos ≠
        raceTrace6.prevBowPos := by
  refine ⟨raceTrace6_reachable, by rw [raceTrace6_eq], ?_⟩
  rw [update_prevBowPos, raceTrace6_eq]
  simp [Point.mk.injEq]
